import Mathlib

/-!
# Verification of the Reddit market-research app's job pipeline and text-mining engine

A shallow embedding, in Lean 4, of the JavaScript sources of the
`reddit-market-research-app` repository:

* `src/services/analysisService.js` — the lexical text-extraction engine
  (pain points, symptoms, clusters, mechanism material, copy bank,
  hypotheses, report compilation);
* `src/services/jobManager.js` and its legacy variant — the job state
  machine, config defaulting and the CSV exporter;
* `src/services/redditService.js` — subreddit relevance scoring and ranking.

JavaScript strings are modelled as `List Char` (`Str` below); the handful of
regular expressions the engine runs are modelled by a small backtracking
matcher over an abstract-syntax type `PElem` that covers exactly the shapes
occurring in the source (ordered literal alternations, `\s+`/`\s*`, and
greedy bounded character-class repetitions, possibly capturing, possibly
optional).  JavaScript numbers are modelled as `Int`/`Nat` where the source
only ever holds integers, and as `ℝ` where the source computes with
`Math.log10` and division (the derived pain-point scores and combined
subreddit scores).  `Math.round x` is modelled as `⌊x + 1/2⌋`, which agrees
with JavaScript on all non-negative arguments.  `Array.prototype.sort` (a
stable sort in the engines the app targets) is modelled by `List.mergeSort`
with the comparator translated to a boolean "may come before" relation.
-/

/-! ## JavaScript string primitives over `List Char` -/

/-- JS strings, modelled as lists of characters. -/
abbrev Str := List Char

/-- Shorthand to turn a Lean string literal into a `Str`. -/
def cs (s : String) : Str := s.toList

/-- ASCII lower-casing of one character (the only case conversion the
source's inputs exercise; `String.prototype.toLowerCase`). -/
def jsLowerChar (c : Char) : Char :=
  if 'A' ≤ c ∧ c ≤ 'Z' then Char.ofNat (c.toNat + 32) else c

/-- ASCII upper-casing of one character (`String.prototype.toUpperCase`). -/
def jsUpperChar (c : Char) : Char :=
  if 'a' ≤ c ∧ c ≤ 'z' then Char.ofNat (c.toNat - 32) else c

/-- `s.toLowerCase()`. -/
def jsLower (s : Str) : Str := s.map jsLowerChar

/-- The JS `\s` whitespace class, restricted to its ASCII members (the only
ones the corpus texts contain). -/
def jsWs (c : Char) : Bool :=
  c = ' ' || c = '\t' || c = '\n' || c = '\r' || c = '\x0b' || c = '\x0c'

/-- `s.trim()`: strip leading and trailing whitespace. -/
def jsTrim (s : Str) : Str :=
  ((s.dropWhile (jsWs ·)).reverse.dropWhile (jsWs ·)).reverse

/-- `s.substring(a, b)` for `a ≤ b` (the only way the source calls it). -/
def jsSubstring (s : Str) (a b : Nat) : Str := (s.drop a).take (b - a)

/-- `hay.includes(pat)`. -/
def jsIncludes (hay pat : Str) : Bool :=
  match hay with
  | [] => pat.isEmpty
  | _ :: rest => pat.isPrefixOf hay || jsIncludes rest pat

/-- `hay.indexOf(pat)`: first index of `pat`, `-1` when absent. -/
def jsIndexOf (hay pat : Str) : Int :=
  match hay with
  | [] => if pat.isEmpty then 0 else -1
  | _ :: rest =>
    if pat.isPrefixOf hay then 0
    else
      let r := jsIndexOf rest pat
      if r = -1 then -1 else r + 1

/-- `list.join(sep)`. -/
def jsJoin (sep : Str) (l : List Str) : Str :=
  match l with
  | [] => []
  | [x] => x
  | x :: rest => x ++ sep ++ jsJoin sep rest

/-- `name.charAt(0).toUpperCase() + name.slice(1)`. -/
def jsCapitalize (s : Str) : Str :=
  match s with
  | [] => []
  | c :: rest => jsUpperChar c :: rest

/-- Split on every whitespace character (`s.split(' ')`-style, one piece
per separator occurrence). -/
def charSplitWs (s : Str) : List Str :=
  s.foldr
    (fun c acc =>
      if jsWs c then [] :: acc
      else match acc with
        | [] => [[c]]
        | t :: rest => (c :: t) :: rest)
    [[]]

/-- Drop empty pieces except in final position. -/
def dropInteriorEmpty : List Str → List Str
  | [] => []
  | [x] => [x]
  | x :: xs => if x.isEmpty then dropInteriorEmpty xs else x :: dropInteriorEmpty xs

/-- `s.split(/\s+/)`: split on maximal whitespace runs.  As in JS, a leading
whitespace run produces a leading empty token and a trailing run a trailing
empty token; runs inside the string produce a single break. -/
def jsSplitWsPlus (s : Str) : List Str :=
  match charSplitWs s with
  | [] => []
  | first :: rest => first :: dropInteriorEmpty rest

/-- Case-insensitive prefix test (how a literal matches under the `/i` flag). -/
def ciPrefix : Str → Str → Bool
  | [], _ => true
  | _ :: _, [] => false
  | a :: as, b :: bs => (jsLowerChar a = jsLowerChar b) && ciPrefix as bs

/-! ## A backtracking matcher for the regex shapes used by the source

Every regular expression in `analysisService.js` is a sequence of

* non-capturing ordered alternations of literals (`(?:a|b|…)`, possibly
  with an empty alternative encoding an optional literal group),
* `\s+` or `\s*`,
* one greedy, possibly optional, possibly capturing character-class
  repetition (`([a-z\s]{3,30})`, `([^.!?\n]{10,100})?`, `[a-z]+`, `.*`).

`PElem` captures exactly these shapes; `matchSeq` implements JS backtracking
semantics (leftmost alternative first, greedy repetition giving back
characters on failure).  Matching is case-insensitive throughout, which is
what the `/i` flag on every pattern in the source gives.
-/

/-- One element of a pattern. -/
inductive PElem where
  /-- Ordered literal alternatives, tried first to last. -/
  | lit (alts : List Str) : PElem
  /-- Greedy repetition of a character class: predicate, minimum count,
  maximum count (`none` = unbounded), whether the group captures, and
  whether the whole group is optional (`(…)?`). -/
  | reps (p : Char → Bool) (lo : Nat) (hi : Option Nat) (cap : Bool) (opt : Bool) : PElem
  /-- Ordered alternation of sub-sequences (used for an alternation one of
  whose branches is not a plain literal).  The sub-sequences must themselves
  be `alt`-free, which holds for every pattern in the source. -/
  | alt (alts : List (List PElem)) : PElem

/-- `\s+`. -/
def wsPlus : PElem := .reps jsWs 1 none false false

/-- `\s*`. -/
def wsStar : PElem := .reps jsWs 0 none false false

/-- `:?` — an optional literal, encoded as an alternation with an empty
alternative. -/
def optLit (s : String) : PElem := .lit [cs s, []]

/-- Length of the maximal run of class characters at the head of `s`. -/
def maxRun (p : Char → Bool) : Str → Nat
  | [] => 0
  | c :: rest => if p c then maxRun p rest + 1 else 0

/-- Worker for `matchSeq`, structurally recursive on a fuel argument that
`matchSeq` instantiates with the pattern length (each recursive call
consumes exactly one pattern element, so the fuel is always exact and the
`fuel = 0` fallback is unreachable). -/
def matchSeqF : Nat → List PElem → Str → Option (Nat × Str)
  | _, [], _ => some (0, [])
  | 0, _ :: _, _ => none
  | fuel + 1, .lit alts :: rest, s =>
    alts.findSome? fun a =>
      if ciPrefix a s then
        (matchSeqF fuel rest (s.drop a.length)).map fun r => (a.length + r.1, r.2)
      else none
  | fuel + 1, .reps p lo hi cap opt :: rest, s =>
    let run := maxRun p s
    let top := match hi with | some h => min h run | none => run
    let greedy := (List.range (top + 1 - lo)).findSome? fun i =>
      let k := top - i
      (matchSeqF fuel rest (s.drop k)).map fun r =>
        (k + r.1, (if cap then s.take k else []) ++ r.2)
    match greedy with
    | some r => some r
    | none => if opt then matchSeqF fuel rest s else none
  | fuel + 1, .alt alts :: rest, s =>
    alts.findSome? fun sub => matchSeqF fuel (sub ++ rest) s

/-- Fuel weight of a pattern element: `1`, except that an `alt` also pays
for the elements of its (alternation-free) branches. -/
def pelemW : PElem → Nat
  | .lit _ => 1
  | .reps _ _ _ _ _ => 1
  | .alt alts => 1 + alts.length + (alts.map (fun sub => sub.length)).sum

/-- Total fuel weight of a pattern. -/
def patsW (pats : List PElem) : Nat := (pats.map pelemW).sum

/-- Match a pattern sequence at the head of `s`, returning the number of
characters consumed and the concatenated captured-group content.  Implements
ordered-alternative and greedy-with-backtracking semantics. -/
def matchSeq (pats : List PElem) (s : Str) : Option (Nat × Str) :=
  matchSeqF (patsW pats) pats s

/-- Find the leftmost match of `pats` starting at index `start` or later:
returns `(index, length, capture)`. -/
def findFrom (pats : List PElem) (s : Str) (start : Nat) : Option (Nat × Nat × Str) :=
  (List.range (s.length + 1 - start)).findSome? fun off =>
    let i := start + off
    (matchSeq pats (s.drop i)).map fun r => (i, r.1, r.2)

/-- The `while ((match = re.exec(text)) !== null)` loop of a `/g` regex:
collect all matches left to right, resuming after the end of each match.
(`max len 1` guards the recursion; every pattern in the source begins with a
non-empty literal, so `len ≥ 1` always.) -/
def execAllAux (pats : List PElem) (s : Str) : Nat → Nat → List (Nat × Nat × Str)
  | _, 0 => []
  | pos, fuel + 1 =>
    match findFrom pats s pos with
    | none => []
    | some (i, len, capd) => (i, len, capd) :: execAllAux pats s (i + max len 1) fuel

/-- All matches of a `/g` regex over `s`. -/
def execAll (pats : List PElem) (s : Str) : List (Nat × Nat × Str) :=
  execAllAux pats s 0 (s.length + 1)

/-! ## Data model: posts, comments, replies, source-log entries

The fields are the ones produced by `redditService.js` and consumed by
`analysisService.js`. -/

/-- A nested reply (one level deep). -/
structure Reply where
  id : Str
  body : Str
  score : Int
  author : Str
  deriving DecidableEq, Repr

/-- A top-level comment with its replies. -/
structure Comment where
  id : Str
  body : Str
  score : Int
  author : Str
  replies : List Reply
  deriving DecidableEq, Repr

/-- A scraped post with its comment tree. -/
structure Post where
  id : Str
  title : Str
  selftext : Str
  score : Int
  url : Str
  subreddit : Str
  comments : List Comment
  deriving DecidableEq, Repr

/-- One source-log entry as produced by `scrapeSubreddits`. -/
structure SourceLogEntry where
  index : Nat
  url : Str
  subreddit : Str
  title : Str
  score : Int
  numComments : Nat
  value : Str
  deriving DecidableEq, Repr

/-! ## `analysisService._calculateEmotionalCharge` -/

/-- The fixed emotional-indicator substrings from the service constructor. -/
def emotionalIndicators : List Str :=
  [cs "depressed", cs "anxious", cs "scared", cs "worried", cs "frustrated", cs "angry",
   cs "hopeless", cs "embarrassed", cs "ashamed", cs "isolated", cs "alone", cs "crying",
   cs "breakdown", cs "mental health", cs "quality of life"]

/-- Case-insensitive substring test (a `/i` regex of plain literals). -/
def ciIncludes (hay pat : Str) : Bool := jsIncludes (jsLower hay) pat

/-- The nine desperation regexes of `_calculateEmotionalCharge`, each expanded
into the finite list of literal strings it can match (they contain only
literals, optional characters and alternations). -/
def desperationPatterns : List (List Str) :=
  [ -- /at (my |wit'?s? )?end/i
    [cs "at end", cs "at my end", cs "at wit end", cs "at wits end", cs "at wit' end", cs "at wit's end"],
    -- /don'?t know what (else )?to do/i
    [cs "dont know what to do", cs "don't know what to do",
     cs "dont know what else to do", cs "don't know what else to do"],
    -- /tried everything/i
    [cs "tried everything"],
    -- /nothing (works|helps)/i
    [cs "nothing works", cs "nothing helps"],
    -- /ruining my life/i
    [cs "ruining my life"],
    -- /can'?t (take|handle|deal)/i
    [cs "cant take", cs "can't take", cs "cant handle", cs "can't handle",
     cs "cant deal", cs "can't deal"],
    -- /years of/i
    [cs "years of"],
    -- /desperate/i
    [cs "desperate"],
    -- /please help/i
    [cs "please help"] ]

/-- `_calculateEmotionalCharge`: one point per emotional indicator present,
two points per desperation pattern that tests positive. -/
def calculateEmotionalCharge (text : Str) : Nat :=
  let lowerText := jsLower text
  (emotionalIndicators.filter (fun ind => jsIncludes lowerText ind)).length
    + 2 * (desperationPatterns.filter (fun alts => alts.any (fun a => ciIncludes text a))).length

/-! ## `analysisService._findPainIndicators` / `_normalizePainPointName` -/

/-- `[a-z]` under the `/i` flag. -/
def lowerAlpha (c : Char) : Bool := 'a' ≤ jsLowerChar c && jsLowerChar c ≤ 'z'

/-- `[a-z\s]` under the `/i` flag. -/
def lowerAlphaWs (c : Char) : Bool := lowerAlpha c || jsWs c

/-- `[^.!?\n]`. -/
def notSentinel (c : Char) : Bool := !(c = '.' || c = '!' || c = '?' || c = '\n')

/-- The four pain-indicator regexes with their `type` tags:
`/(?:struggling with|suffering from|dealing with|have|diagnosed with)\s+([a-z\s]{3,30})/gi`,
`/(?:my|the)\s+([a-z]+)\s+(?:is|are)\s+(?:killing|ruining|destroying)/gi`,
`/(?:chronic|severe|constant|persistent)\s+([a-z\s]{3,20})/gi`,
`/(?:can't|cannot)\s+(?:eat|sleep|work|live|function)\s+(?:because of|due to)\s+([a-z\s]{3,30})/gi`. -/
def painPatterns : List (List PElem × Str) :=
  [ ([.lit [cs "struggling with", cs "suffering from", cs "dealing with", cs "have",
            cs "diagnosed with"],
      wsPlus, .reps lowerAlphaWs 3 (some 30) true false], cs "condition"),
    ([.lit [cs "my", cs "the"], wsPlus, .reps lowerAlpha 1 none true false, wsPlus,
      .lit [cs "is", cs "are"], wsPlus,
      .lit [cs "killing", cs "ruining", cs "destroying"]], cs "impact"),
    ([.lit [cs "chronic", cs "severe", cs "constant", cs "persistent"],
      wsPlus, .reps lowerAlphaWs 3 (some 20) true false], cs "symptom"),
    ([.lit [cs "can't", cs "cannot"], wsPlus,
      .lit [cs "eat", cs "sleep", cs "work", cs "live", cs "function"], wsPlus,
      .lit [cs "because of", cs "due to"], wsPlus,
      .reps lowerAlphaWs 3 (some 30) true false], cs "limitation") ]

/-- `_normalizePainPointName`: the static synonym table, falling back to
capitalizing the raw phrase. -/
def normalizePainPointName (name : Str) : Str :=
  let normalizations : List (Str × Str) :=
    [ (cs "ibs", cs "IBS (Irritable Bowel Syndrome)"),
      (cs "irritable bowel", cs "IBS (Irritable Bowel Syndrome)"),
      (cs "sibo", cs "SIBO (Small Intestinal Bacterial Overgrowth)"),
      (cs "small intestinal bacterial overgrowth",
        cs "SIBO (Small Intestinal Bacterial Overgrowth)"),
      (cs "bloating", cs "Bloating"),
      (cs "bloat", cs "Bloating"),
      (cs "constipation", cs "Constipation"),
      (cs "diarrhea", cs "Diarrhea"),
      (cs "acid reflux", cs "Acid Reflux/GERD"),
      (cs "gerd", cs "Acid Reflux/GERD"),
      (cs "leaky gut", cs "Leaky Gut"),
      (cs "gut issues", cs "General Gut Issues"),
      (cs "digestive issues", cs "Digestive Issues"),
      (cs "food intolerances", cs "Food Intolerances"),
      (cs "food sensitivities", cs "Food Sensitivities") ]
  let lower := jsTrim (jsLower name)
  match normalizations.find? (fun kv => kv.1 = lower) with
  | some kv => kv.2
  | none => jsCapitalize name

/-- One indicator found by `_findPainIndicators`. -/
structure PainIndicator where
  name : Str
  type : Str
  quote : Str
  deriving DecidableEq, Repr

/-- `_findPainIndicators`: run the four patterns over the (already
lower-cased) combined text; keep captures whose trimmed form has length in
`[3, 30]`, normalized and with a ±50-character context quote. -/
def findPainIndicators (text : Str) : List PainIndicator :=
  painPatterns.flatMap fun pt =>
    (execAll pt.1 text).filterMap fun m =>
      let name := jsLower (jsTrim m.2.2)
      if 3 ≤ name.length ∧ name.length ≤ 30 then
        let startIdx := m.1 - 50
        let endIdx := min text.length (m.1 + m.2.1 + 50)
        let quote := cs "..." ++ jsTrim (jsSubstring text startIdx endIdx) ++ cs "..."
        some { name := normalizePainPointName name, type := pt.2, quote := quote }
      else none

/-! ## `analysisService._extractPainPoints` -/

/-- A sample quote attached to a pain point. -/
structure Quote where
  text : Str
  source : Str
  deriving DecidableEq, Repr

/-- The per-name accumulator record held in the `painPointMap`. -/
structure PainAcc where
  name : Str
  commonNames : List Str
  threadCount : Nat
  totalScore : Int
  emotionalCharge : Nat
  sampleQuotes : List Quote
  sourceUrls : List Str
  deriving DecidableEq, Repr

/-- The combined lower-cased post text pain extraction works over:
`(title + ' ' + selftext).toLowerCase() + ' ' + comments.join(' ').toLowerCase()`. -/
def combinedPainText (post : Post) : Str :=
  jsLower (post.title ++ cs " " ++ post.selftext) ++ cs " "
    ++ jsLower (jsJoin (cs " ") (post.comments.map (·.body)))

/-- The mutation applied to a pain-point accumulator for one indicator. -/
def applyIndicator (post : Post) (charge : Nat) (ind : PainIndicator) (pp : PainAcc) : PainAcc :=
  { pp with
    threadCount := pp.threadCount + 1,
    totalScore := pp.totalScore + post.score,
    emotionalCharge := pp.emotionalCharge + charge,
    sampleQuotes :=
      if ind.quote ≠ [] ∧ pp.sampleQuotes.length < 5 then
        pp.sampleQuotes ++ [⟨ind.quote, post.url⟩]
      else pp.sampleQuotes,
    sourceUrls := pp.sourceUrls ++ [post.url] }

/-- The fresh accumulator inserted on first sight of a name. -/
def freshPain (name : Str) : PainAcc :=
  { name := name, commonNames := [name], threadCount := 0, totalScore := 0,
    emotionalCharge := 0, sampleQuotes := [], sourceUrls := [] }

/-- Insert-or-update step of the `painPointMap` (JS `Map` preserves
insertion order, modelled by an ordered list keyed by `name`). -/
def upsertPain (post : Post) (charge : Nat) (acc : List PainAcc) (ind : PainIndicator) :
    List PainAcc :=
  if acc.any (fun pp => pp.name = ind.name) then
    acc.map (fun pp => if pp.name = ind.name then applyIndicator post charge ind pp else pp)
  else
    acc ++ [applyIndicator post charge ind (freshPain ind.name)]

/-- The accumulation loop of `_extractPainPoints` (everything before the
score computation). -/
def painPointAccs (posts : List Post) : List PainAcc :=
  posts.foldl
    (fun acc post =>
      let combinedText := combinedPainText post
      let charge := calculateEmotionalCharge combinedText
      (findPainIndicators combinedText).foldl (upsertPain post charge) acc)
    []

/-- `Math.round x`, as a real: `⌊x + 1/2⌋`. -/
noncomputable def jsRound (x : ℝ) : ℝ := ⌊x + 1/2⌋

/-- `Math.round (x * 10) / 10` — round to one decimal. -/
noncomputable def round1 (x : ℝ) : ℝ := jsRound (x * 10) / 10

/-- A fully scored pain point. -/
structure PainPoint where
  name : Str
  commonNames : List Str
  threadCount : Nat
  totalScore : Int
  emotionalCharge : Nat
  sampleQuotes : List Quote
  sourceUrls : List Str
  volumeScore : ℝ
  emotionalScore : ℝ
  priorityScore : ℝ
  avgScore : Int

/-- The score computation mapped over the accumulators:
`volumeScore = min(10, log10(threadCount+1)*5)`,
`emotionalScore = min(10, emotionalCharge/threadCount)`,
`priorityScore = volumeScore*0.4 + emotionalScore*0.6`, each rounded to one
decimal, and `avgScore = round(totalScore/threadCount)`. -/
noncomputable def scorePainPoint (pp : PainAcc) : PainPoint :=
  let volumeScore : ℝ := min 10 (Real.logb 10 ((pp.threadCount : ℝ) + 1) * 5)
  let emotionalScore : ℝ := min 10 ((pp.emotionalCharge : ℝ) / (pp.threadCount : ℝ))
  let priorityScore : ℝ := volumeScore * 0.4 + emotionalScore * 0.6
  { name := pp.name, commonNames := pp.commonNames, threadCount := pp.threadCount,
    totalScore := pp.totalScore, emotionalCharge := pp.emotionalCharge,
    sampleQuotes := pp.sampleQuotes, sourceUrls := pp.sourceUrls,
    volumeScore := round1 volumeScore,
    emotionalScore := round1 emotionalScore,
    priorityScore := round1 priorityScore,
    avgScore := ⌊(pp.totalScore : ℝ) / (pp.threadCount : ℝ) + 1/2⌋ }

/-- `_extractPainPoints`: accumulate, score, and stable-sort descending by
`priorityScore` (`.sort((a, b) => b.priorityScore - a.priorityScore)`). -/
noncomputable def extractPainPoints (posts : List Post) : List PainPoint :=
  ((painPointAccs posts).map scorePainPoint).mergeSort
    (fun a b => decide (b.priorityScore ≤ a.priorityScore))

/-! ## `analysisService._findSymptoms` / `_extractSymptoms` -/

/-- One dictionary hit found in a post's text. -/
structure SymptomHit where
  original : Str
  normalized : Str
  category : Str
  phrase : Option Str
  deriving DecidableEq, Repr

/-- The fixed category → canonical-term → raw-term dictionary. -/
def symptomDictionary : List (Str × List (List Str × Str)) :=
  [ (cs "physical",
     [ ([cs "bloating", cs "bloated", cs "bloat"], cs "Bloating"),
       ([cs "constipation", cs "constipated"], cs "Constipation"),
       ([cs "diarrhea", cs "loose stool", cs "loose stools"], cs "Diarrhea"),
       ([cs "abdominal pain", cs "stomach pain", cs "belly pain", cs "gut pain"],
         cs "Abdominal Pain"),
       ([cs "cramps", cs "cramping", cs "cramp"], cs "Cramping"),
       ([cs "nausea", cs "nauseous", cs "queasy"], cs "Nausea"),
       ([cs "gas", cs "flatulence", cs "gassy"], cs "Gas/Flatulence"),
       ([cs "acid reflux", cs "heartburn", cs "gerd"], cs "Acid Reflux"),
       ([cs "fatigue", cs "tired", cs "exhausted", cs "no energy"], cs "Fatigue"),
       ([cs "brain fog", cs "foggy", cs "can't think", cs "mental fog"], cs "Brain Fog"),
       ([cs "headache", cs "headaches", cs "migraine"], cs "Headaches"),
       ([cs "skin issues", cs "acne", cs "rash", cs "eczema"], cs "Skin Issues"),
       ([cs "weight gain", cs "gaining weight", cs "can't lose weight"], cs "Weight Issues"),
       ([cs "insomnia", cs "can't sleep", cs "poor sleep"], cs "Sleep Issues"),
       ([cs "joint pain", cs "achy joints"], cs "Joint Pain") ]),
    (cs "emotional",
     [ ([cs "anxiety", cs "anxious", cs "worried"], cs "Anxiety"),
       ([cs "depression", cs "depressed", cs "sad"], cs "Depression"),
       ([cs "stress", cs "stressed"], cs "Stress"),
       ([cs "irritability", cs "irritable", cs "mood swings"], cs "Mood Issues") ]),
    (cs "lifestyle",
     [ ([cs "can't eat", cs "afraid to eat", cs "food fear"], cs "Food Fear/Restrictions"),
       ([cs "can't go out", cs "avoid social", cs "cancel plans"], cs "Social Avoidance"),
       ([cs "miss work", cs "can't work", cs "affects my job"], cs "Work Impact"),
       ([cs "relationship", cs "partner", cs "spouse"], cs "Relationship Strain") ]) ]

/-- `_findSymptoms`: for each dictionary row the first raw term present in
the lower-cased text wins; a ±30-character window around its first
occurrence is kept as a sample phrase when longer than 10 characters. -/
def findSymptoms (text : Str) : List SymptomHit :=
  let lowerText := jsLower text
  symptomDictionary.flatMap fun cat =>
    cat.2.filterMap fun row =>
      (row.1.find? (fun term => jsIncludes lowerText term)).map fun term =>
        let idx := jsIndexOf lowerText term
        let start := max 0 (idx - 30)
        let stop := min (lowerText.length : Int) (idx + term.length + 30)
        let phrase := jsTrim (jsSubstring text start.toNat stop.toNat)
        { original := term, normalized := row.2, category := cat.1,
          phrase := if 10 < phrase.length then some (cs "..." ++ phrase ++ cs "...") else none }

/-- The per-canonical-name symptom record (the `coOccurrences` map is
created but never filled by the source). -/
structure Symptom where
  name : Str
  variations : List Str
  frequency : Nat
  category : Str
  samplePhrases : List Str
  coOccurrences : List (Str × Nat)
  deriving DecidableEq, Repr

/-- The full text `_extractSymptoms` scans per post: title, body, comment
bodies and one level of reply bodies joined by spaces. -/
def symptomAllText (post : Post) : Str :=
  jsJoin (cs " ")
    ([post.title, post.selftext] ++ post.comments.map (·.body)
      ++ post.comments.flatMap (fun c => c.replies.map (·.body)))

/-- Mutation of a symptom record for one hit: record the variation (a set),
bump the frequency, and keep at most five sample phrases. -/
def applySymptomHit (hit : SymptomHit) (s : Symptom) : Symptom :=
  { s with
    variations := if hit.original ∈ s.variations then s.variations
                  else s.variations ++ [hit.original],
    frequency := s.frequency + 1,
    samplePhrases :=
      match hit.phrase with
      | some ph => if s.samplePhrases.length < 5 then s.samplePhrases ++ [ph]
                   else s.samplePhrases
      | none => s.samplePhrases }

/-- Insert-or-update step of the `symptomMap`, keyed by canonical name. -/
def upsertSymptom (acc : List Symptom) (hit : SymptomHit) : List Symptom :=
  if acc.any (fun s => s.name = hit.normalized) then
    acc.map (fun s => if s.name = hit.normalized then applySymptomHit hit s else s)
  else
    acc ++ [applySymptomHit hit
      { name := hit.normalized, variations := [], frequency := 0,
        category := hit.category, samplePhrases := [], coOccurrences := [] }]

/-- `_extractSymptoms`: accumulate over all posts, then stable-sort
descending by frequency. -/
def extractSymptoms (posts : List Post) : List Symptom :=
  (posts.foldl (fun acc post => (findSymptoms (symptomAllText post)).foldl upsertSymptom acc) [])
    |>.mergeSort (fun a b => decide (b.frequency ≤ a.frequency))

/-! ## `analysisService._findSymptomClusters` -/

/-- A symptom cluster accumulator. -/
structure Cluster where
  symptoms : List Str
  frequency : Nat
  sourceUrls : List Str
  deriving DecidableEq, Repr

/-- A cluster with its synthetic display name. -/
structure NamedCluster where
  symptoms : List Str
  frequency : Nat
  sourceUrls : List Str
  name : Str
  deriving DecidableEq, Repr

/-- Strict UTF-16-style lexicographic comparison (what JS default
`Array.prototype.sort` uses on strings; identical to code-point order on
the ASCII names involved). -/
def strLt : Str → Str → Bool
  | [], [] => false
  | [], _ :: _ => true
  | _ :: _, [] => false
  | a :: as, b :: bs => if a < b then true else if b < a then false else strLt as bs

/-- JS default (comparator-less) sort on strings: ascending lexicographic. -/
def sortStrings (l : List Str) : List Str := l.mergeSort (fun a b => !(strLt b a))

/-- The text `_findSymptomClusters` scans per post: title, body and
top-level comment bodies only, lower-cased. -/
def clusterText (post : Post) : Str :=
  jsLower (jsJoin (cs " ") ([post.title, post.selftext] ++ post.comments.map (·.body)))

/-- The canonical names of the symptoms present in one post, capped at 5. -/
def presentSymptoms (symptoms : List Symptom) (allText : Str) : List Str :=
  ((symptoms.filter (fun s => s.variations.any (fun v => jsIncludes allText (jsLower v))))
    |>.map (·.name)).take 5

/-- The per-post step of the `clusterMap` accumulation loop. -/
def clusterStep (symptoms : List Symptom) (acc : List (Str × Cluster)) (post : Post) :
    List (Str × Cluster) :=
  let allText := clusterText post
  let present := presentSymptoms symptoms allText
  if 2 ≤ present.length then
    let sorted := sortStrings present
    let clusterKey := jsJoin (cs " + ") sorted
    let bump := fun (c : Cluster) =>
      { c with frequency := c.frequency + 1,
               sourceUrls := if c.sourceUrls.length < 3 then c.sourceUrls ++ [post.url]
                             else c.sourceUrls }
    if acc.any (fun kv => kv.1 = clusterKey) then
      acc.map (fun kv => if kv.1 = clusterKey then (kv.1, bump kv.2) else kv)
    else
      acc ++ [(clusterKey, bump { symptoms := sorted, frequency := 0, sourceUrls := [] })]
  else acc

/-- The `clusterMap` after all posts are processed. -/
def clusterGroups (posts : List Post) (symptoms : List Symptom) : List (Str × Cluster) :=
  posts.foldl (clusterStep symptoms) []

/-- `_findSymptomClusters`: group posts by their (sorted, `+`-joined) present
symptom sets of size ≥ 2, keep clusters of frequency ≥ 2, top 20 by
frequency, then attach display names. -/
def findSymptomClusters (posts : List Post) (symptoms : List Symptom) : List NamedCluster :=
  let grouped := clusterGroups posts symptoms
  ((((grouped.map (·.2)).filter (fun c => 2 ≤ c.frequency))
      |>.mergeSort (fun a b => decide (b.frequency ≤ a.frequency))).take 20).enum.map
    fun ci =>
      { symptoms := ci.2.symptoms, frequency := ci.2.frequency, sourceUrls := ci.2.sourceUrls,
        name := cs "Cluster " ++ cs (Nat.repr (ci.1 + 1)) ++ cs ": "
          ++ jsJoin (cs " + ") (ci.2.symptoms.take 3)
          ++ (if 3 < ci.2.symptoms.length then cs " + more" else []) }

/-! ## `analysisService._extractMechanismMaterial` / `_dedupeAndRank` -/

/-- An extracted mechanism-material item.  The per-category key field of
the source (`text` for root causes, `solution` for failed/working
solutions, `belief` for beliefs, `target` for skepticisms) is modelled
uniformly as `text`; `score` is present only on the categories that record
it.  `frequency` and `sources` are filled in by `_dedupeAndRank` (the
object spread there overwrites whatever the fields held). -/
structure MatItem where
  text : Str
  context : Str
  source : Str
  score : Option Int
  frequency : Nat
  sources : List Str
  deriving DecidableEq, Repr

/-- `.` (any character but newline). -/
def anyNotNl (c : Char) : Bool := !(c = '\n')

/-- `/(?:i think|i believe|turns out|the real (?:cause|reason|problem)|root cause)\s+(?:is|was|it'?s)\s+([^.!?\n]{10,100})/gi` -/
def rootCausePattern1 : List PElem :=
  [.lit [cs "i think", cs "i believe", cs "turns out", cs "the real cause",
         cs "the real reason", cs "the real problem", cs "root cause"],
   wsPlus, .lit [cs "is", cs "was", cs "it's", cs "its"], wsPlus,
   .reps notSentinel 10 (some 100) true false]

/-- `/(?:caused by|due to|because of)\s+([^.!?\n]{10,80})/gi` -/
def rootCausePattern2 : List PElem :=
  [.lit [cs "caused by", cs "due to", cs "because of"], wsPlus,
   .reps notSentinel 10 (some 80) true false]

/-- `/(?:tried|used|took)\s+([^.!?\n]{5,50})\s+(?:but|and)\s+(?:it )?(didn'?t|didn'?t work|nothing|no help|made .* worse)/gi`
(the final group captures in the source but its capture — `match[2]` — is
never read, so it is modelled as non-capturing). -/
def failedPattern1 : List PElem :=
  [.lit [cs "tried", cs "used", cs "took"], wsPlus,
   .reps notSentinel 5 (some 50) true false, wsPlus,
   .lit [cs "but", cs "and"], wsPlus, .lit [cs "it ", []],
   .alt [[.lit [cs "didn't", cs "didnt"]],
         [.lit [cs "didn't work", cs "didnt work"]],
         [.lit [cs "nothing"]],
         [.lit [cs "no help"]],
         [.lit [cs "made "], .reps anyNotNl 0 none false false, .lit [cs " worse"]]]]

/-- `/([^.!?\n]{5,50})\s+(?:didn'?t work|doesn'?t work|never worked|useless|waste of money)/gi` -/
def failedPattern2 : List PElem :=
  [.reps notSentinel 5 (some 50) true false, wsPlus,
   .lit [cs "didn't work", cs "didnt work", cs "doesn't work", cs "doesnt work",
         cs "never worked", cs "useless", cs "waste of money"]]

/-- `/(?:what (?:finally )?worked|game changer|life saver|breakthrough|the key)\s+(?:was|is|for me)?\s*:?\s*([^.!?\n]{10,100})/gi` -/
def workingPattern1 : List PElem :=
  [.lit [cs "what finally worked", cs "what worked", cs "game changer", cs "life saver",
         cs "breakthrough", cs "the key"],
   wsPlus, .lit [cs "was", cs "is", cs "for me", []], wsStar, optLit ":", wsStar,
   .reps notSentinel 10 (some 100) true false]

/-- `/(?:finally|actually)\s+(?:worked|helped|fixed|cured|solved)\s*:?\s*([^.!?\n]{10,100})/gi` -/
def workingPattern2 : List PElem :=
  [.lit [cs "finally", cs "actually"], wsPlus,
   .lit [cs "worked", cs "helped", cs "fixed", cs "cured", cs "solved"],
   wsStar, optLit ":", wsStar, .reps notSentinel 10 (some 100) true false]

/-- `/(?:i |my )?(?:started|began|tried)\s+([^.!?\n]{10,80})\s+and\s+(?:it )?(?:worked|helped|fixed|changed)/gi` -/
def workingPattern3 : List PElem :=
  [.lit [cs "i ", cs "my ", []], .lit [cs "started", cs "began", cs "tried"], wsPlus,
   .reps notSentinel 10 (some 80) true false, wsPlus, .lit [cs "and"], wsPlus,
   .lit [cs "it ", []], .lit [cs "worked", cs "helped", cs "fixed", cs "changed"]]

/-- `/(?:you need to|you have to|the key is|important to)\s+([^.!?\n]{10,80})/gi` -/
def beliefPattern1 : List PElem :=
  [.lit [cs "you need to", cs "you have to", cs "the key is", cs "important to"],
   wsPlus, .reps notSentinel 10 (some 80) true false]

/-- `/(?:most people|everyone|doctors)\s+(?:don'?t|doesn'?t|never)\s+([^.!?\n]{10,80})/gi` -/
def beliefPattern2 : List PElem :=
  [.lit [cs "most people", cs "everyone", cs "doctors"], wsPlus,
   .lit [cs "don't", cs "dont", cs "doesn't", cs "doesnt", cs "never"], wsPlus,
   .reps notSentinel 10 (some 80) true false]

/-- `/(?:snake oil|scam|doesn'?t work|waste of money|bs|bullshit|fake)\s*:?\s*([^.!?\n]{5,50})?/gi` -/
def skepticPattern1 : List PElem :=
  [.lit [cs "snake oil", cs "scam", cs "doesn't work", cs "doesnt work",
         cs "waste of money", cs "bs", cs "bullshit", cs "fake"],
   wsStar, optLit ":", wsStar, .reps notSentinel 5 (some 50) true true]

/-- `/(?:don'?t believe|skeptical|doubt|suspicious)\s+(?:about|of)?\s*([^.!?\n]{5,80})/gi` -/
def skepticPattern2 : List PElem :=
  [.lit [cs "don't believe", cs "dont believe", cs "skeptical", cs "doubt", cs "suspicious"],
   wsPlus, .lit [cs "about", cs "of", []], wsStar,
   .reps notSentinel 5 (some 80) true false]

/-- The text mechanism and copy mining scan per post: title, body and
top-level comment bodies joined by newlines (case preserved). -/
def mechAllText (post : Post) : Str :=
  jsJoin (cs "\n") ([post.title, post.selftext] ++ post.comments.map (·.body))

/-- Collect the items of one pattern family over one post: each match
yields `{trimmed capture, whole match, post url, optionally the post
score}`. -/
def mineItems (patterns : List (List PElem)) (withScore : Bool) (post : Post) : List MatItem :=
  let allText := mechAllText post
  patterns.flatMap fun pat =>
    (execAll pat allText).map fun m =>
      { text := jsTrim m.2.2,
        context := jsSubstring allText m.1 (m.1 + m.2.1),
        source := post.url,
        score := if withScore then some post.score else none,
        frequency := 0, sources := [] }

/-- The five parallel mechanism-material collections. -/
structure MechMaterial where
  rootCauses : List MatItem
  failedSolutions : List MatItem
  workingSolutions : List MatItem
  beliefs : List MatItem
  skepticisms : List MatItem
  deriving DecidableEq, Repr

/-- The `_dedupeAndRank` update applied to an existing group entry. -/
def applyDedupe (item : MatItem) (ex : MatItem) : MatItem :=
  { ex with frequency := ex.frequency + 1,
            sources := if ex.sources.length < 3 then ex.sources ++ [item.source]
                       else ex.sources }

/-- The dedupe key of an item: `(item[keyField] || '').toLowerCase().trim()`. -/
def dedupeKey (item : MatItem) : Str := jsTrim (jsLower item.text)

/-- One step of the `_dedupeAndRank` grouping loop: keys shorter than 5
characters are discarded; the first item of a group supplies the retained
fields (spread with `frequency`/`sources` reset). -/
def dedupeStep (m : List (Str × MatItem)) (item : MatItem) : List (Str × MatItem) :=
  let key := dedupeKey item
  if key.length < 5 then m
  else if m.any (fun kv => kv.1 = key) then
    m.map (fun kv => if kv.1 = key then (kv.1, applyDedupe item kv.2) else kv)
  else m ++ [(key, applyDedupe item { item with frequency := 0, sources := [] })]

/-- The grouping loop of `_dedupeAndRank`: an ordered map keyed by the
lower-cased trimmed key field. -/
def dedupeGroups (items : List MatItem) : List (Str × MatItem) :=
  items.foldl dedupeStep []

/-- `_dedupeAndRank`: group, stable-sort descending by frequency, keep the
top 20. -/
def dedupeAndRank (items : List MatItem) : List MatItem :=
  (((dedupeGroups items).map (·.2)).mergeSort
    (fun a b => decide (b.frequency ≤ a.frequency))).take 20

/-- `_extractMechanismMaterial`: mine the five regex families over all
posts, then dedupe-and-rank each collection. -/
def extractMechanismMaterial (posts : List Post) : MechMaterial :=
  { rootCauses :=
      dedupeAndRank (posts.flatMap (mineItems [rootCausePattern1, rootCausePattern2] true)),
    failedSolutions :=
      dedupeAndRank (posts.flatMap (mineItems [failedPattern1, failedPattern2] false)),
    workingSolutions :=
      dedupeAndRank
        (posts.flatMap (mineItems [workingPattern1, workingPattern2, workingPattern3] true)),
    beliefs :=
      dedupeAndRank (posts.flatMap (mineItems [beliefPattern1, beliefPattern2] false)),
    skepticisms :=
      dedupeAndRank (posts.flatMap (mineItems [skepticPattern1, skepticPattern2] false)) }

/-! ## `analysisService._mineCopyBank` / `_dedupePhrases` -/

/-- A mined copy phrase with its source URL. -/
structure Phrase where
  phrase : Str
  source : Str
  deriving DecidableEq, Repr

/-- `/(?:feels? like|it'?s like)\s+([^.!?\n]{10,80})/gi` -/
def copySymptomPattern1 : List PElem :=
  [.lit [cs "feels like", cs "feel like", cs "it's like", cs "its like"], wsPlus,
   .reps notSentinel 10 (some 80) true false]

/-- `/(?:i experience|i get|i have)\s+([^.!?\n]{10,60})/gi` -/
def copySymptomPattern2 : List PElem :=
  [.lit [cs "i experience", cs "i get", cs "i have"], wsPlus,
   .reps notSentinel 10 (some 60) true false]

/-- `/(?:i'?m so|i am so)\s+(?:tired|sick|frustrated|done)\s+([^.!?\n]{5,60})/gi` -/
def copyProblemPattern1 : List PElem :=
  [.lit [cs "i'm so", cs "im so", cs "i am so"], wsPlus,
   .lit [cs "tired", cs "sick", cs "frustrated", cs "done"], wsPlus,
   .reps notSentinel 5 (some 60) true false]

/-- `/(?:nothing|it'?s|this is)\s+(?:ruining|destroying|affecting)\s+([^.!?\n]{10,60})/gi` -/
def copyProblemPattern2 : List PElem :=
  [.lit [cs "nothing", cs "it's", cs "its", cs "this is"], wsPlus,
   .lit [cs "ruining", cs "destroying", cs "affecting"], wsPlus,
   .reps notSentinel 10 (some 60) true false]

/-- `/(?:i just want to|i wish i could|i want to be able to)\s+([^.!?\n]{10,80})/gi` -/
def copyDesirePattern1 : List PElem :=
  [.lit [cs "i just want to", cs "i wish i could", cs "i want to be able to"], wsPlus,
   .reps notSentinel 10 (some 80) true false]

/-- `/(?:imagine|if only)\s+([^.!?\n]{10,80})/gi` -/
def copyDesirePattern2 : List PElem :=
  [.lit [cs "imagine", cs "if only"], wsPlus, .reps notSentinel 10 (some 80) true false]

/-- `/(?:i don'?t believe|how do i know|seems too good|sounds like)\s+([^.!?\n]{10,80})/gi` -/
def copyObjectionPattern1 : List PElem :=
  [.lit [cs "i don't believe", cs "i dont believe", cs "how do i know",
         cs "seems too good", cs "sounds like"], wsPlus,
   .reps notSentinel 10 (some 80) true false]

/-- `/(?:skeptical|doubt|suspicious|concerned)\s+(?:about|that)?\s*([^.!?\n]{5,80})/gi` -/
def copyObjectionPattern2 : List PElem :=
  [.lit [cs "skeptical", cs "doubt", cs "suspicious", cs "concerned"], wsPlus,
   .lit [cs "about", cs "that", []], wsStar, .reps notSentinel 5 (some 80) true false]

/-- Collect `match[0].trim()` phrases of one pattern family over one post. -/
def minePhrases (patterns : List (List PElem)) (post : Post) : List Phrase :=
  let allText := mechAllText post
  patterns.flatMap fun pat =>
    (execAll pat allText).map fun m =>
      { phrase := jsTrim (jsSubstring allText m.1 (m.1 + m.2.1)), source := post.url }

/-- `_dedupePhrases`: filter by unseen lower-cased 30-character prefix, then
keep the first 20 survivors. -/
def dedupePhrases (phrases : List Phrase) : List Phrase :=
  (phrases.foldl
    (fun (st : List Str × List Phrase) p =>
      let key := (jsLower p.phrase).take 30
      if st.1.contains key then st else (st.1 ++ [key], st.2 ++ [p]))
    ([], [])).2.take 20

/-- The four phrase collections of the copy bank. -/
structure CopyBank where
  symptomPhrases : List Phrase
  problemPhrases : List Phrase
  desirePhrases : List Phrase
  objectionPhrases : List Phrase
  deriving DecidableEq, Repr

/-- `_mineCopyBank`: mine the four regex families over all posts, then
dedupe each collection. -/
def mineCopyBank (posts : List Post) : CopyBank :=
  { symptomPhrases :=
      dedupePhrases (posts.flatMap (minePhrases [copySymptomPattern1, copySymptomPattern2])),
    problemPhrases :=
      dedupePhrases (posts.flatMap (minePhrases [copyProblemPattern1, copyProblemPattern2])),
    desirePhrases :=
      dedupePhrases (posts.flatMap (minePhrases [copyDesirePattern1, copyDesirePattern2])),
    objectionPhrases :=
      dedupePhrases (posts.flatMap (minePhrases [copyObjectionPattern1, copyObjectionPattern2])) }

/-! ## `analysisService._generateHypotheses` -/

/-- A synthesized mechanism hypothesis. -/
structure Hypothesis where
  name : Str
  type : Str
  targetPainPoints : List Str
  keySymptoms : List Str
  problemSide : Str
  solutionSide : Str
  knowledgeGap : Str
  proofStrategy : Str
  sampleHook : Str
  sampleLead : Str
  sources : List Str
  deriving DecidableEq, Repr

/-- JS `x?.f || 'default'`: the default is used when the chain is undefined
or the field is an empty string. -/
def jsOrStr (o : Option Str) (d : Str) : Str :=
  match o with
  | none => d
  | some s => if s = [] then d else s

/-- A JS template-literal interpolation of a possibly-undefined value
(renders `undefined` when absent; only reached under guards that make the
value present). -/
def undefStr (o : Option Str) : Str := o.getD (cs "undefined")

/-- `_generateHypotheses`: up to three hypotheses, independently gated and
emitted in a fixed insertion order. -/
def generateHypotheses (painPoints : List PainPoint) (symptoms : List Symptom)
    (mechanismMaterial : MechMaterial) : List Hypothesis :=
  let topPainPoints := painPoints.take 5
  let topSymptoms := symptoms.take 10
  let topWorkingSolutions := mechanismMaterial.workingSolutions.take 10
  let topRootCauses := mechanismMaterial.rootCauses.take 10
  let h1 : List Hypothesis :=
    if 0 < topRootCauses.length ∧ 0 < topWorkingSolutions.length then
      [{ name := cs "The Hidden Root Cause Mechanism",
         type := cs "Unspoken",
         targetPainPoints := (topPainPoints.take 3).map (·.name),
         keySymptoms := (topSymptoms.take 3).map (·.name),
         problemSide := cs "Most people focus on symptoms, but the real issue is "
           ++ jsOrStr ((topRootCauses.head?).map (·.text)) (cs "an underlying imbalance"),
         solutionSide := cs "By addressing "
           ++ jsOrStr ((topWorkingSolutions.head?).map (·.text)) (cs "the root cause")
           ++ cs ", you can finally see results",
         knowledgeGap := cs "The connection between the root cause and visible symptoms",
         proofStrategy := cs "Show the mechanism of action, cite studies on root cause",
         sampleHook := cs "Why " ++ jsOrStr ((topSymptoms.head?).map (·.name)) (cs "your symptoms")
           ++ cs " keeps coming back (hint: it's not what you think)",
         sampleLead := cs "Do you experience "
           ++ jsJoin (cs ", ") ((topSymptoms.take 3).map (·.name)) ++ cs "?",
         sources := ((topRootCauses.head?).map (·.sources)).getD []
           ++ ((topWorkingSolutions.head?).map (·.sources)).getD [] }]
    else []
  let h2 : List Hypothesis :=
    if 0 < mechanismMaterial.failedSolutions.length then
      let topFailed := mechanismMaterial.failedSolutions.head?
      [{ name := cs "The Missing Piece Mechanism",
         type := cs "Existing",
         targetPainPoints := (topPainPoints.take 3).map (·.name),
         keySymptoms := (topSymptoms.take 3).map (·.name),
         problemSide := jsOrStr (topFailed.map (·.text)) (cs "Common solutions")
           ++ cs " don't work because they only address part of the problem",
         solutionSide := cs "You need to combine the right approach with the missing element",
         knowledgeGap := cs "Why single-target solutions fail for multi-factor problems",
         proofStrategy := cs "Show clinical evidence of synergistic effects",
         sampleHook := cs "Why " ++ jsOrStr (topFailed.map (·.text)) (cs "what you tried")
           ++ cs " didn't work for you",
         sampleLead := cs "Tried " ++ jsOrStr (topFailed.map (·.text)) (cs "everything")
           ++ cs " but still struggling with "
           ++ jsOrStr ((topSymptoms.head?).map (·.name)) (cs "symptoms") ++ cs "?",
         sources := (topFailed.map (·.sources)).getD [] }]
    else []
  let h3 : List Hypothesis :=
    if 5 < symptoms.length then
      [{ name := cs "The Connected Symptoms Mechanism",
         type := cs "Transubstantiated",
         targetPainPoints := (topPainPoints.take 3).map (·.name),
         keySymptoms := (topSymptoms.take 5).map (·.name),
         problemSide := cs "Your " ++ jsJoin (cs ", ") ((topSymptoms.take 3).map (·.name))
           ++ cs " aren't separate problems—they're connected",
         solutionSide := cs "Address the common thread and all symptoms improve together",
         knowledgeGap := cs "The hidden connection between seemingly unrelated symptoms",
         proofStrategy := cs "Map out the physiological pathway connecting symptoms",
         sampleHook := cs "The surprising link between "
           ++ undefStr ((topSymptoms.head?).map (·.name)) ++ cs " and "
           ++ undefStr ((topSymptoms.get? 1).map (·.name)),
         sampleLead := cs "Do you notice your " ++ undefStr ((topSymptoms.head?).map (·.name))
           ++ cs " gets worse when your " ++ undefStr ((topSymptoms.get? 1).map (·.name))
           ++ cs " flares up?",
         sources := [] }]
    else []
  h1 ++ h2 ++ h3

/-! ## `analysisService._enrichSourceLog` -/

/-- A source-log entry after enrichment.  The `analysisValue`,
`commentCount` and `totalEngagement` fields are absent (`none`) when no
post with the entry's URL exists (the source returns the item unchanged in
that case). -/
structure EnrichedLogEntry where
  entry : SourceLogEntry
  analysisValue : Option Str
  commentCount : Option Nat
  totalEngagement : Option Int
  deriving DecidableEq, Repr

/-- `_enrichSourceLog`: re-scan each logged post for the three boolean
signals, attach the comment count and total engagement, and sort by total
engagement descending.  (The comparator `b.totalEngagement -
a.totalEngagement` yields `NaN` — treated as "equal" by the sort — when a
side is an unenriched item, modelled by `true` for either order.) -/
def enrichSourceLog (sourceLog : List SourceLogEntry) (posts : List Post) :
    List EnrichedLogEntry :=
  (sourceLog.map fun item =>
    match posts.find? (fun p => p.url = item.url) with
    | none => { entry := item, analysisValue := none, commentCount := none,
                totalEngagement := none }
    | some post =>
      let allText := jsJoin (cs " ") ([post.title, post.selftext] ++ post.comments.map (·.body))
      -- /(?:root cause|real reason|underlying|the key)/i
      let hasRootCause := [cs "root cause", cs "real reason", cs "underlying", cs "the key"]
        |>.any (ciIncludes allText ·)
      -- /(?:finally worked|game changer|breakthrough|helped me)/i
      let hasSolution := [cs "finally worked", cs "game changer", cs "breakthrough",
        cs "helped me"] |>.any (ciIncludes allText ·)
      -- /(?:symptoms|experience|feel|suffering)/i
      let hasSymptoms := [cs "symptoms", cs "experience", cs "feel", cs "suffering"]
        |>.any (ciIncludes allText ·)
      let analysisValue := (if hasRootCause then [cs "Mechanism"] else [])
        ++ (if hasSolution then [cs "Solution"] else [])
        ++ (if hasSymptoms then [cs "Symptoms"] else [])
      { entry := item,
        analysisValue := some (if 0 < analysisValue.length then jsJoin (cs "/") analysisValue
                               else item.value),
        commentCount := some post.comments.length,
        totalEngagement := some (post.score + (post.comments.map (·.score)).sum) }).mergeSort
    (fun a b =>
      match a.totalEngagement, b.totalEngagement with
      | some x, some y => decide (y ≤ x)
      | _, _ => true)

/-! ## `analysisService._compileReport` / `analyzeData` -/

/-- The scrape metadata record carried through the pipeline. -/
structure Metadata where
  scrapedAt : Str
  subreddits : List Str
  sort : Str
  timeFilter : Str
  totalPosts : Nat
  totalComments : Nat
  deriving DecidableEq, Repr

/-- One ranked row of the report's priority ranking. -/
structure RankedPainPoint where
  rank : Nat
  name : Str
  priorityScore : ℝ
  volumeScore : ℝ
  emotionalScore : ℝ
  threadCount : Nat
  sampleQuotes : List Quote

/-- One trimmed symptom row of the report. -/
structure TopSymptom where
  name : Str
  category : Str
  frequency : Nat
  samplePhrases : List Str
  deriving DecidableEq, Repr

/-- One hook-bank row of the report. -/
structure HookIdea where
  symptom : Str
  hookIdea : Str
  frequency : Nat
  deriving DecidableEq, Repr

/-- The report's summary block. -/
structure Summary where
  totalPainPoints : Nat
  totalSymptoms : Nat
  totalClusters : Nat
  topPainPoint : Str
  topSymptom : Str
  hypothesesGenerated : Nat
  deriving DecidableEq, Repr

/-- The compiled analysis report. -/
structure Report where
  metadata : Metadata
  analysisCompletedAt : Str
  summary : Summary
  priorityRanking : List RankedPainPoint
  fullList : List PainPoint
  topSymptoms : List TopSymptom
  clusters : List NamedCluster
  hookBank : List HookIdea
  rootCauses : List MatItem
  failedSolutions : List MatItem
  workingSolutions : List MatItem
  beliefs : List MatItem
  skepticisms : List MatItem
  symptomPhrases : List Phrase
  problemPhrases : List Phrase
  desirePhrases : List Phrase
  objectionPhrases : List Phrase
  mechanismHypotheses : List Hypothesis
  topThreads : List EnrichedLogEntry
  byValueMechanism : List EnrichedLogEntry
  byValueSolution : List EnrichedLogEntry
  byValueSymptoms : List EnrichedLogEntry
  fullLog : List EnrichedLogEntry

/-- Membership test on an optional string (`s.analysisValue?.includes(v)`;
an undefined chain is falsy). -/
def optIncludes (o : Option Str) (v : Str) : Bool :=
  match o with
  | some s => jsIncludes s v
  | none => false

/-- `_compileReport`, flattened: the nested report object of the source
with each leaf list under its original name (`completedAt` is the wall
clock `new Date().toISOString()`, passed in as a parameter). -/
noncomputable def compileReport (metadata : Metadata) (completedAt : Str)
    (painPoints : List PainPoint) (symptoms : List Symptom)
    (symptomClusters : List NamedCluster) (mechanismMaterial : MechMaterial)
    (copyBank : CopyBank) (hypotheses : List Hypothesis)
    (sourceLog : List EnrichedLogEntry) : Report :=
  { metadata := metadata,
    analysisCompletedAt := completedAt,
    summary :=
      { totalPainPoints := painPoints.length,
        totalSymptoms := symptoms.length,
        totalClusters := symptomClusters.length,
        topPainPoint := ((painPoints.head?).map (·.name)).getD (cs "N/A"),
        topSymptom := ((symptoms.head?).map (·.name)).getD (cs "N/A"),
        hypothesesGenerated := hypotheses.length },
    priorityRanking := (painPoints.take 10).enum.map fun ip =>
      { rank := ip.1 + 1, name := ip.2.name, priorityScore := ip.2.priorityScore,
        volumeScore := ip.2.volumeScore, emotionalScore := ip.2.emotionalScore,
        threadCount := ip.2.threadCount, sampleQuotes := ip.2.sampleQuotes.take 3 },
    fullList := painPoints,
    topSymptoms := (symptoms.take 15).map fun s =>
      { name := s.name, category := s.category, frequency := s.frequency,
        samplePhrases := s.samplePhrases.take 3 },
    clusters := symptomClusters.take 10,
    hookBank := (symptoms.take 10).map fun s =>
      { symptom := s.name,
        hookIdea := cs "Do you experience " ++ jsLower s.name ++ cs "?",
        frequency := s.frequency },
    rootCauses := mechanismMaterial.rootCauses.take 15,
    failedSolutions := mechanismMaterial.failedSolutions.take 15,
    workingSolutions := mechanismMaterial.workingSolutions.take 15,
    beliefs := mechanismMaterial.beliefs.take 10,
    skepticisms := mechanismMaterial.skepticisms.take 10,
    symptomPhrases := copyBank.symptomPhrases.take 15,
    problemPhrases := copyBank.problemPhrases.take 15,
    desirePhrases := copyBank.desirePhrases.take 15,
    objectionPhrases := copyBank.objectionPhrases.take 10,
    mechanismHypotheses := hypotheses,
    topThreads := sourceLog.take 20,
    byValueMechanism := (sourceLog.filter (fun s => optIncludes s.analysisValue (cs "Mechanism"))).take 10,
    byValueSolution := (sourceLog.filter (fun s => optIncludes s.analysisValue (cs "Solution"))).take 10,
    byValueSymptoms := (sourceLog.filter (fun s => optIncludes s.analysisValue (cs "Symptoms"))).take 10,
    fullLog := sourceLog }

/-- The scraped-data artifact a job's analysis phase loads. -/
structure ScrapedData where
  metadata : Metadata
  posts : List Post
  sourceLog : List SourceLogEntry

/-- `analyzeData`: the eight-phase pipeline (progress callbacks carry no
data and are omitted; `completedAt` stands for the wall clock read in
`_compileReport`).  Every phase is a total function, so the model makes
explicit that analysis never throws. -/
noncomputable def analyzeData (scrapedData : ScrapedData) (completedAt : Str) : Report :=
  let painPoints := extractPainPoints scrapedData.posts
  let symptoms := extractSymptoms scrapedData.posts
  let symptomClusters := findSymptomClusters scrapedData.posts symptoms
  let mechanismMaterial := extractMechanismMaterial scrapedData.posts
  let copyBank := mineCopyBank scrapedData.posts
  let hypotheses := generateHypotheses painPoints symptoms mechanismMaterial
  compileReport scrapedData.metadata completedAt painPoints symptoms symptomClusters
    mechanismMaterial copyBank hypotheses
    (enrichSourceLog scrapedData.sourceLog scrapedData.posts)

/-! ## `jobManager.createJob` / `startAnalysis` -/

/-- Job lifecycle states (`'pending' | 'running' | 'scraped' | 'failed' |
'analyzing' | 'analyzed' | 'analysis_failed'`). -/
inductive JobStatus where
  | pending | running | scraped | failed | analyzing | analyzed | analysisFailed
  deriving DecidableEq, Repr

/-- The raw config object handed to `createJob`; `none` models an absent
(undefined) field. -/
structure JobConfigInput where
  subreddits : Option (List Str)
  topic : Option Str
  postLimit : Option Nat
  commentLimit : Option Nat
  sort : Option Str
  timeFilter : Option Str
  keywords : Option (List Str)
  matchAll : Option Bool
  deriving DecidableEq, Repr

/-- The defaulted config stored on a job. -/
structure JobConfig where
  subreddits : List Str
  topic : Str
  postLimit : Nat
  commentLimit : Nat
  sort : Str
  timeFilter : Str
  keywords : List Str
  matchAll : Bool
  deriving DecidableEq, Repr

/-- `x || d` for a JS number slot: the default is used when the field is
absent or `0` (falsy). -/
def jsOrNat (o : Option Nat) (d : Nat) : Nat :=
  match o with
  | none => d
  | some n => if n = 0 then d else n

/-- `x || []` for a JS array slot: arrays are always truthy, so only an
absent field defaults. -/
def jsOrList (o : Option (List Str)) : List Str := o.getD []

/-- `x || false` for a JS boolean slot. -/
def jsOrBool (o : Option Bool) : Bool :=
  match o with
  | none => false
  | some b => b

/-- A job's progress record. -/
structure Progress where
  phase : Str
  message : Str
  percent : Nat
  deriving DecidableEq, Repr

/-- A job record. -/
structure Job where
  id : Str
  type : Str
  status : JobStatus
  config : JobConfig
  progress : Progress
  createdAt : Str
  startedAt : Option Str
  completedAt : Option Str
  error : Option Str
  dataFile : Option Str
  analysisFile : Option Str
  deriving DecidableEq, Repr

/-- `createJob`: default every config slot, initialize state `pending` with
zero progress (the fresh UUID and creation timestamp are parameters). -/
def createJob (jobId : Str) (createdAt : Str) (config : JobConfigInput) : Job :=
  { id := jobId,
    type := cs "scrape",
    status := .pending,
    config :=
      { subreddits := jsOrList config.subreddits,
        topic := jsOrStr config.topic [],
        postLimit := jsOrNat config.postLimit 50,
        commentLimit := jsOrNat config.commentLimit 50,
        sort := jsOrStr config.sort (cs "top"),
        timeFilter := jsOrStr config.timeFilter (cs "year"),
        keywords := jsOrList config.keywords,
        matchAll := jsOrBool config.matchAll },
    progress :=
      { phase := cs "pending", message := cs "Job created, waiting to start...", percent := 0 },
    createdAt := createdAt,
    startedAt := none, completedAt := none, error := none,
    dataFile := none, analysisFile := none }

/-- The in-memory job table (`this.jobs`, a `Map` in insertion order). -/
structure JMState where
  jobs : List (Str × Job)
  deriving DecidableEq, Repr

/-- `this.jobs.get(jobId)`. -/
def getJob (st : JMState) (jobId : Str) : Option Job :=
  (st.jobs.find? (fun kv => kv.1 = jobId)).map (·.2)

/-- `createJob` including the `jobs.set(jobId, job)` insertion. -/
def createJobIn (st : JMState) (jobId : Str) (createdAt : Str) (config : JobConfigInput) :
    Job × JMState :=
  let job := createJob jobId createdAt config
  (job, { jobs := st.jobs ++ [(jobId, job)] })

/-- `startAnalysis`: synchronous part of the transition.  Returns the
result (the job handle or the thrown error message), the job table after
the call, and whether a background analysis task was launched.  Both guards
throw before any mutation, so the failing cases return the table
unchanged. -/
def startAnalysis (st : JMState) (jobId : Str) : Except Str Job × JMState × Bool :=
  match getJob st jobId with
  | none => (.error (cs "Job not found"), st, false)
  | some job =>
    if job.status ≠ .scraped ∧ job.status ≠ .analyzed then
      (.error (cs "Job must be in scraped status to analyze"), st, false)
    else
      let job' := { job with
        status := .analyzing,
        progress := { phase := cs "analyzing", message := cs "Starting analysis...",
                      percent := 0 } }
      (.ok job',
       { jobs := st.jobs.map (fun kv => if kv.1 = jobId then (kv.1, job') else kv) },
       true)

/-! ## `jobManager._generateCsvExport` (legacy lexical pipeline)

The exporter consumes the analysis artifact parsed back from JSON; the
numeric leaves (`priorityScore`, `volumeScore`, `emotionalScore`,
`frequency`) are only ever interpolated into the output, so they are
modelled by their decimal renderings (strings, which by JSON number syntax
never contain a double quote). -/

/-- A pain-point row of the parsed analysis artifact. -/
structure CsvPainPoint where
  name : Str
  priorityScore : Str
  volumeScore : Str
  emotionalScore : Str
  deriving DecidableEq, Repr

/-- A symptom row of the parsed analysis artifact. -/
structure CsvSymptom where
  name : Str
  frequency : Str
  category : Str
  deriving DecidableEq, Repr

/-- A copy-bank row of the parsed analysis artifact. -/
structure CsvPhrase where
  phrase : Str
  source : Str
  deriving DecidableEq, Repr

/-- The slices of the parsed analysis artifact the CSV exporter reads
(`painPointAnalysis.fullList`, `symptomAnalysis.topSymptoms`, and three
copy-bank collections). -/
structure CsvAnalysis where
  fullList : List CsvPainPoint
  topSymptoms : List CsvSymptom
  symptomPhrases : List CsvPhrase
  problemPhrases : List CsvPhrase
  desirePhrases : List CsvPhrase
  deriving DecidableEq, Repr

/-- `v.replace(/"/g, '""')`. -/
def escapeQuotes (s : Str) : Str :=
  s.flatMap fun c => if c = '"' then ['"', '"'] else [c]

/-- `_generateCsvExport` of the legacy (lexical-pipeline) job manager:
pain-point and symptom rows interpolate the name verbatim; only the copy
phrases are quote-escaped. -/
def generateCsvExport (analysis : CsvAnalysis) : Str :=
  cs "Type,Name,Score,Details,Source\n"
    ++ (analysis.fullList.map fun pp =>
        cs "Pain Point,\"" ++ pp.name ++ cs "\"," ++ pp.priorityScore
          ++ cs ",\"Volume: " ++ pp.volumeScore ++ cs ", Emotional: " ++ pp.emotionalScore
          ++ cs "\",\"\"\n").flatten
    ++ (analysis.topSymptoms.map fun s =>
        cs "Symptom,\"" ++ s.name ++ cs "\"," ++ s.frequency
          ++ cs ",\"Category: " ++ s.category ++ cs "\",\"\"\n").flatten
    ++ (analysis.symptomPhrases.map fun p =>
        cs "Copy - Symptom,\"" ++ escapeQuotes p.phrase ++ cs "\",,\"\",\""
          ++ p.source ++ cs "\"\n").flatten
    ++ (analysis.problemPhrases.map fun p =>
        cs "Copy - Problem,\"" ++ escapeQuotes p.phrase ++ cs "\",,\"\",\""
          ++ p.source ++ cs "\"\n").flatten
    ++ (analysis.desirePhrases.map fun p =>
        cs "Copy - Desire,\"" ++ escapeQuotes p.phrase ++ cs "\",,\"\",\""
          ++ p.source ++ cs "\"\n").flatten

/-- The CSV export as the specification describes it: identical layout, but
with *every* value embedded inside a quoted CSV field (pain-point names,
symptom names, volume/emotional renderings, categories, phrases, sources)
quote-escaped. -/
def generateCsvExportSpec (analysis : CsvAnalysis) : Str :=
  cs "Type,Name,Score,Details,Source\n"
    ++ (analysis.fullList.map fun pp =>
        cs "Pain Point,\"" ++ escapeQuotes pp.name ++ cs "\"," ++ pp.priorityScore
          ++ cs ",\"Volume: " ++ escapeQuotes pp.volumeScore ++ cs ", Emotional: "
          ++ escapeQuotes pp.emotionalScore ++ cs "\",\"\"\n").flatten
    ++ (analysis.topSymptoms.map fun s =>
        cs "Symptom,\"" ++ escapeQuotes s.name ++ cs "\"," ++ s.frequency
          ++ cs ",\"Category: " ++ escapeQuotes s.category ++ cs "\",\"\"\n").flatten
    ++ (analysis.symptomPhrases.map fun p =>
        cs "Copy - Symptom,\"" ++ escapeQuotes p.phrase ++ cs "\",,\"\",\""
          ++ escapeQuotes p.source ++ cs "\"\n").flatten
    ++ (analysis.problemPhrases.map fun p =>
        cs "Copy - Problem,\"" ++ escapeQuotes p.phrase ++ cs "\",,\"\",\""
          ++ escapeQuotes p.source ++ cs "\"\n").flatten
    ++ (analysis.desirePhrases.map fun p =>
        cs "Copy - Desire,\"" ++ escapeQuotes p.phrase ++ cs "\",,\"\",\""
          ++ escapeQuotes p.source ++ cs "\"\n").flatten

/-! ## `redditService._calculateRelevance` and discovery ranking -/

/-- The raw subreddit object fields `_calculateRelevance` reads. -/
structure SubredditData where
  display_name : Str
  title : Str
  public_description : Str
  subscribers : Nat
  deriving DecidableEq, Repr

/-- `topic.replace(/\s+/g, '')`. -/
def stripWs (s : Str) : Str := s.filter (fun c => !jsWs c)

/-- The fixed health-domain boost terms. -/
def healthRelatedTerms : List Str :=
  [cs "ibs", cs "sibo", cs "microbiome", cs "probiotic", cs "digest",
   cs "fodmap", cs "bloat", cs "constip", cs "nutriti"]

/-- `_calculateRelevance`: base 20, one name/title/description match bonus
(first applicable), a domain-term bonus, a subscriber-size bonus, capped
at 100. -/
def calculateRelevance (topic : Str) (subreddit : SubredditData) : Nat :=
  let topicLower := jsLower topic
  let topicWords := jsSplitWsPlus topicLower
  let topicNoSpaces := stripWs topicLower
  let nameLower := jsLower subreddit.display_name
  let titleLower := jsLower subreddit.title
  let descLower := jsLower subreddit.public_description
  let base := 20
  let matchBonus :=
    if nameLower = topicNoSpaces then 80
    else if jsIncludes nameLower topicNoSpaces then 60
    else if topicWords.any (fun w => 3 < w.length && jsIncludes nameLower w) then 40
    else if jsIncludes titleLower topicLower then 30
    else if jsIncludes descLower topicLower then 20
    else if topicWords.any (fun w => 3 < w.length && jsIncludes descLower w) then 10
    else 0
  let healthBonus :=
    if healthRelatedTerms.any (fun t => jsIncludes nameLower t || jsIncludes descLower t)
    then 25 else 0
  let sizeBonus :=
    if 10000 < subreddit.subscribers ∧ subreddit.subscribers < 500000 then 10
    else if 1000 < subreddit.subscribers then 5
    else 0
  min 100 (base + matchBonus + healthBonus + sizeBonus)

/-- The relevance assigned in `discoverSubreddits` to a subreddit found only
through matching posts (strategy 2): exact no-spaces name match 100, name
containment 80, word containment 60, otherwise a post-count score capped
at 50. -/
def postFoundRelevance (topic : Str) (nameLower : Str) (count : Nat) : Nat :=
  let topicLower := jsLower topic
  let topicNoSpaces := stripWs topicLower
  let topicWords := (jsSplitWsPlus topicLower).filter (fun w => 3 < w.length)
  if nameLower = topicNoSpaces then 100
  else if jsIncludes nameLower topicNoSpaces then 80
  else if topicWords.any (fun w => jsIncludes nameLower w) then 60
  else min 50 (20 + count * 5)

/-- One discovery result before final scoring. -/
structure DiscResult where
  name : Str
  relevanceScore : Nat
  subscribers : Nat
  combinedScore : ℝ

/-- One discovery result after ranking. -/
structure RankedResult where
  name : Str
  relevanceScore : Nat
  subscribers : Nat
  combinedScore : ℝ
  rank : Nat

/-- `subscribers > 0 ? Math.min(100, Math.log10(subscribers) * 15) : 0`. -/
noncomputable def volumeNorm (subscribers : Nat) : ℝ :=
  if 0 < subscribers then min 100 (Real.logb 10 (subscribers : ℝ) * 15) else 0

/-- `combinedScore = relevanceScore * 0.7 + volumeNorm * 0.3`. -/
noncomputable def combinedScoreOf (relevanceScore : Nat) (subscribers : Nat) : ℝ :=
  (relevanceScore : ℝ) * 0.7 + volumeNorm subscribers * 0.3

/-- The final scoring/ranking stage of `discoverSubreddits`: assign each
result its combined score, stable-sort descending by it, and attach
1-based ranks. -/
noncomputable def rankResults (results : List DiscResult) : List RankedResult :=
  let scored := results.map fun r =>
    { r with combinedScore := combinedScoreOf r.relevanceScore r.subscribers }
  ((scored.mergeSort (fun a b => decide (b.combinedScore ≤ a.combinedScore))).enum).map
    fun ir =>
      { name := ir.2.name, relevanceScore := ir.2.relevanceScore,
        subscribers := ir.2.subscribers, combinedScore := ir.2.combinedScore,
        rank := ir.1 + 1 }

/-! ## Claim-side auxiliary definitions and concrete test inputs -/

/-- The number of distinct posts in which at least one pain indicator
normalizing to `name` matched (the quantity the specification calls
`threadCount`). -/
def distinctPostCount (posts : List Post) (name : Str) : Nat :=
  (posts.filter fun p =>
    (findPainIndicators (combinedPainText p)).any (fun i => i.name = name)).length

/-- The total number of matched indicators normalizing to `name`, summed
over all posts (a post with `k` such indicators contributes `k`). -/
def totalIndicatorCount (posts : List Post) (name : Str) : Nat :=
  (posts.map fun p =>
    ((findPainIndicators (combinedPainText p)).filter (fun i => i.name = name)).length).sum

/-- A string containing no double-quote character. -/
def QuoteFree (s : Str) : Prop := '"' ∉ s

instance (s : Str) : Decidable (QuoteFree s) :=
  inferInstanceAs (Decidable ('"' ∉ s))

/-- A post whose body contains two pain indicators that both normalize to
"Bloating" (`suffering from bloat` and `struggling with bloating`). -/
def doubleIndicatorPost : Post :=
  { id := cs "p1", title := [],
    selftext := cs "suffering from bloat. struggling with bloating.",
    score := 1, url := cs "u1", subreddit := cs "guthealth", comments := [] }

/-- Two mechanism-material items sharing the key `stomach pain` but carrying
different sources. -/
def dupItemA : MatItem :=
  { text := cs "stomach pain", context := cs "c1", source := cs "u1",
    score := none, frequency := 0, sources := [] }

/-- Second item with the same key as `dupItemA`. -/
def dupItemB : MatItem :=
  { text := cs "stomach pain", context := cs "c2", source := cs "u2",
    score := none, frequency := 0, sources := [] }

/-- What `_dedupeAndRank` produces from `[dupItemA, dupItemB]`: one merged
entry of frequency 2 carrying both sources. -/
def mergedDupItem : MatItem :=
  { text := cs "stomach pain", context := cs "c1", source := cs "u1",
    score := none, frequency := 2, sources := [cs "u1", cs "u2"] }

/-- A parsed analysis artifact whose single pain-point name contains a
double quote. -/
def quotedNameAnalysis : CsvAnalysis :=
  { fullList := [{ name := cs "sleep \"issues\"", priorityScore := cs "5",
                   volumeScore := cs "1", emotionalScore := cs "2" }],
    topSymptoms := [], symptomPhrases := [], problemPhrases := [], desirePhrases := [] }

/-- A quote-free parsed analysis artifact (witness input). -/
def plainAnalysis : CsvAnalysis :=
  { fullList := [{ name := cs "Bloating", priorityScore := cs "7.2",
                   volumeScore := cs "3.5", emotionalScore := cs "9.6" }],
    topSymptoms := [{ name := cs "Fatigue", frequency := cs "4", category := cs "physical" }],
    symptomPhrases := [{ phrase := cs "feels like a \"balloon\"", source := cs "u1" }],
    problemPhrases := [], desirePhrases := [] }

/-- A job table holding one job in each of the three states the claim about
`startAnalysis` quantifies over. -/
def threeStateTable : JMState :=
  let base := createJob (cs "j1") (cs "t1")
    ⟨none, none, none, none, none, none, none, none⟩
  { jobs := [ (cs "j1", base),
              (cs "j2", { base with id := cs "j2", status := .running }),
              (cs "j3", { base with id := cs "j3", status := .failed }) ] }

/-- The concrete subreddit record of the ranking scenario: named exactly
`guthealth`. -/
def guthealthSub : SubredditData :=
  { display_name := cs "guthealth", title := cs "Gut Health",
    public_description := cs "All about digestion", subscribers := 52000 }

/-- A concrete config with an explicit `postLimit: 0` (witness input). -/
def zeroLimitConfig : JobConfigInput :=
  { subreddits := some [cs "guthealth"], topic := some (cs "gut health"),
    postLimit := some 0, commentLimit := none, sort := some [],
    timeFilter := none, keywords := none, matchAll := none }

/-! # Helper lemmas -/

/-- A fold preserves any invariant its step preserves. -/
theorem foldl_preserves {α β : Type} (f : β → α → β) (P : β → Prop)
    (hf : ∀ b a, P b → P (f b a)) : ∀ (l : List α) (b : β), P b → P (l.foldl f b) := by
  intro l
  induction l with
  | nil => exact fun b hb => hb
  | cons a t ih => exact fun b hb => ih (f b a) (hf b a hb)

/-- A stable sort descending by a key yields a pairwise non-increasing list. -/
theorem pairwise_mergeSort_keyDesc {α β : Type} [LinearOrder β] (key : α → β)
    (l : List α) :
    (l.mergeSort (fun a b => decide (key b ≤ key a))).Pairwise (fun a b => key b ≤ key a) := by
  have h := @List.sorted_mergeSort _ (fun a b => decide (key b ≤ key a))
    (fun a b c hab hbc => by
      simp only [decide_eq_true_eq] at *
      exact le_trans hbc hab)
    (fun a b => by
      simp only [Bool.or_eq_true, decide_eq_true_eq]
      exact le_total (key b) (key a)) l
  exact h.imp (by intro a b hb; simpa using hb)

/-- Pairwise transfer from a list to its enumeration. -/
theorem pairwise_enum_of_pairwise {α : Type} {R : α → α → Prop} {l : List α}
    (h : l.Pairwise R) : l.enum.Pairwise (fun p q => R p.2 q.2) := by
  rw [List.pairwise_iff_get] at h ⊢
  intro i j hij
  rw [List.get_enum, List.get_enum]
  exact h _ _ (by simpa using hij)

/-- A nonempty prefix is nonempty exactly when the list is. -/
theorem take_pos_iff {α : Type} (l : List α) (n : Nat) (hn : 0 < n) :
    0 < (l.take n).length ↔ l ≠ [] := by
  simp only [List.length_take, lt_min_iff, hn, true_and]
  exact List.length_pos

/-! # C5: hypothesis synthesis gating -/

/-- **C5.**  For every input triple, hypothesis synthesis emits between 0
and 3 hypotheses, gated independently — a "Hidden Root Cause" hypothesis
exactly when both the root-cause and working-solution material are
non-empty, a "Missing Piece" hypothesis exactly when the failed-solution
material is non-empty, and a "Connected Symptoms" hypothesis exactly when
at least 6 symptoms exist — and the output order is the fixed insertion
order of these three checks. -/
theorem hypotheses_gating (painPoints : List PainPoint) (symptoms : List Symptom)
    (m : MechMaterial) :
    (generateHypotheses painPoints symptoms m).map (·.name) =
        (if m.rootCauses ≠ [] ∧ m.workingSolutions ≠ []
         then [cs "The Hidden Root Cause Mechanism"] else [])
      ++ (if m.failedSolutions ≠ [] then [cs "The Missing Piece Mechanism"] else [])
      ++ (if 6 ≤ symptoms.length then [cs "The Connected Symptoms Mechanism"] else [])
    ∧ (generateHypotheses painPoints symptoms m).length ≤ 3 := by
  have hlen : (5 < symptoms.length) = (6 ≤ symptoms.length) := rfl
  have hmap : (generateHypotheses painPoints symptoms m).map (·.name) =
        (if m.rootCauses ≠ [] ∧ m.workingSolutions ≠ []
         then [cs "The Hidden Root Cause Mechanism"] else [])
      ++ (if m.failedSolutions ≠ [] then [cs "The Missing Piece Mechanism"] else [])
      ++ (if 6 ≤ symptoms.length then [cs "The Connected Symptoms Mechanism"] else []) := by
    by_cases h1 : m.rootCauses = [] <;> by_cases h2 : m.workingSolutions = [] <;>
      by_cases h3 : m.failedSolutions = [] <;> by_cases h4 : 6 ≤ symptoms.length <;>
      simp [generateHypotheses, h1, h2, h3, h4, hlen, List.length_pos]
  refine ⟨hmap, ?_⟩
  have hl : (generateHypotheses painPoints symptoms m).length
      = ((generateHypotheses painPoints symptoms m).map (·.name)).length := by simp
  rw [hl, hmap]
  split_ifs <;> simp

/-! # C2: `startAnalysis` on a job not in `scraped`/`analyzed` state -/

/-- **C2.**  Calling `startAnalysis` on a job whose status is `pending`,
`running` or `failed` throws the job-state error synchronously, leaves the
job table (and hence the job's status) unchanged, and launches no
background work. -/
theorem startAnalysis_invalid_state (st : JMState) (jobId : Str) (job : Job)
    (hfind : getJob st jobId = some job)
    (hst : job.status = .pending ∨ job.status = .running ∨ job.status = .failed) :
    startAnalysis st jobId =
      (.error (cs "Job must be in scraped status to analyze"), st, false) := by
  have hcond : job.status ≠ .scraped ∧ job.status ≠ .analyzed := by
    rcases hst with h | h | h <;> simp [h]
  unfold startAnalysis
  rw [hfind]
  simp only [if_pos hcond]

/-- Witness for `startAnalysis_invalid_state`: a concrete table with a
running job. -/
theorem startAnalysis_invalid_state_witness :
    startAnalysis threeStateTable (cs "j2") =
      (.error (cs "Job must be in scraped status to analyze"), threeStateTable, false) :=
  startAnalysis_invalid_state threeStateTable (cs "j2")
    { createJob (cs "j1") (cs "t1") ⟨none, none, none, none, none, none, none, none⟩ with
        id := cs "j2", status := .running }
    (by decide) (Or.inr (Or.inl rfl))

/-! # C10: `createJob` config defaulting -/

/-- **C10.**  `createJob` replaces each absent or falsy config field with
its default — forum list `[]`, topic `''`, `postLimit` 50, `commentLimit`
50, sort `'top'`, time filter `'year'` — so in particular `postLimit: 0`
yields a job config with `postLimit = 50`; a non-zero `postLimit` is kept. -/
theorem createJob_defaults (config : JobConfigInput) (jobId createdAt : Str) :
    (config.subreddits = none → (createJob jobId createdAt config).config.subreddits = [])
    ∧ ((config.topic = none ∨ config.topic = some []) →
        (createJob jobId createdAt config).config.topic = [])
    ∧ ((config.postLimit = none ∨ config.postLimit = some 0) →
        (createJob jobId createdAt config).config.postLimit = 50)
    ∧ ((config.commentLimit = none ∨ config.commentLimit = some 0) →
        (createJob jobId createdAt config).config.commentLimit = 50)
    ∧ ((config.sort = none ∨ config.sort = some []) →
        (createJob jobId createdAt config).config.sort = cs "top")
    ∧ ((config.timeFilter = none ∨ config.timeFilter = some []) →
        (createJob jobId createdAt config).config.timeFilter = cs "year")
    ∧ (∀ n : Nat, config.postLimit = some n → n ≠ 0 →
        (createJob jobId createdAt config).config.postLimit = n) := by
  refine ⟨?_, ?_, ?_, ?_, ?_, ?_, ?_⟩
  · intro h; simp [createJob, jsOrList, h]
  · rintro (h | h) <;> simp [createJob, jsOrStr, h]
  · rintro (h | h) <;> simp [createJob, jsOrNat, h]
  · rintro (h | h) <;> simp [createJob, jsOrNat, h]
  · rintro (h | h) <;> simp [createJob, jsOrStr, h]
  · rintro (h | h) <;> simp [createJob, jsOrStr, h]
  · intro n h hn; simp [createJob, jsOrNat, h, hn]

/-- Witness for `createJob_defaults`: a config with `postLimit: 0` and
`sort: ''` yields `postLimit = 50` and `sort = 'top'`. -/
theorem createJob_defaults_witness :
    (createJob (cs "j1") (cs "t1") zeroLimitConfig).config.postLimit = 50 ∧
    (createJob (cs "j1") (cs "t1") zeroLimitConfig).config.sort = cs "top" :=
  ⟨(createJob_defaults zeroLimitConfig (cs "j1") (cs "t1")).2.2.1 (Or.inr rfl),
   (createJob_defaults zeroLimitConfig (cs "j1") (cs "t1")).2.2.2.2.1 (Or.inr rfl)⟩

/-! # C1: pain-point priority scores lie in [0,10], list sorted descending -/

/-- Rounding to one decimal keeps values of `[0, 10]` inside `[0, 10]`. -/
theorem round1_bounds {x : ℝ} (h0 : 0 ≤ x) (h1 : x ≤ 10) :
    0 ≤ round1 x ∧ round1 x ≤ 10 := by
  have hf0 : (0 : ℤ) ≤ ⌊x * 10 + 1/2⌋ := Int.floor_nonneg.mpr (by linarith)
  have hf1 : ⌊x * 10 + 1/2⌋ ≤ (100 : ℤ) := by
    have : ⌊x * 10 + 1/2⌋ < (101 : ℤ) := Int.floor_lt.mpr (by push_cast; linarith)
    omega
  constructor
  · unfold round1 jsRound
    have : (0 : ℝ) ≤ ⌊x * 10 + 1/2⌋ := by exact_mod_cast hf0
    positivity
  · unfold round1 jsRound
    have : (⌊x * 10 + 1/2⌋ : ℝ) ≤ 100 := by exact_mod_cast hf1
    linarith

/-- The unrounded pain-point score components lie in `[0, 10]`. -/
theorem scorePainPoint_priority_bounds (a : PainAcc) :
    0 ≤ (scorePainPoint a).priorityScore ∧ (scorePainPoint a).priorityScore ≤ 10 := by
  have htc : (0 : ℝ) ≤ (a.threadCount : ℝ) := Nat.cast_nonneg _
  have hlog : 0 ≤ Real.logb 10 ((a.threadCount : ℝ) + 1) :=
    Real.logb_nonneg (by norm_num) (by linarith)
  have hv0 : 0 ≤ min (10 : ℝ) (Real.logb 10 ((a.threadCount : ℝ) + 1) * 5) :=
    le_min (by norm_num) (by positivity)
  have hv1 : min (10 : ℝ) (Real.logb 10 ((a.threadCount : ℝ) + 1) * 5) ≤ 10 := min_le_left _ _
  have he0 : 0 ≤ min (10 : ℝ) ((a.emotionalCharge : ℝ) / (a.threadCount : ℝ)) :=
    le_min (by norm_num) (div_nonneg (Nat.cast_nonneg _) htc)
  have he1 : min (10 : ℝ) ((a.emotionalCharge : ℝ) / (a.threadCount : ℝ)) ≤ 10 :=
    min_le_left _ _
  have := round1_bounds (x := min (10 : ℝ) (Real.logb 10 ((a.threadCount : ℝ) + 1) * 5) * 0.4
      + min (10 : ℝ) ((a.emotionalCharge : ℝ) / (a.threadCount : ℝ)) * 0.6)
    (by linarith) (by linarith)
  exact this

/-- **C1.**  For every corpus, every extracted pain point's `priorityScore`
lies in the closed interval `[0, 10]`, and the returned list is sorted
non-increasing by `priorityScore`. -/
theorem painPoints_bounded_and_sorted (posts : List Post) :
    (∀ pp ∈ extractPainPoints posts, 0 ≤ pp.priorityScore ∧ pp.priorityScore ≤ 10)
    ∧ (extractPainPoints posts).Pairwise (fun a b => b.priorityScore ≤ a.priorityScore) := by
  constructor
  · intro pp hpp
    rw [extractPainPoints, List.mem_mergeSort] at hpp
    obtain ⟨a, _, rfl⟩ := List.mem_map.mp hpp
    exact scorePainPoint_priority_bounds a
  · exact pairwise_mergeSort_keyDesc (fun pp : PainPoint => pp.priorityScore)
      ((painPointAccs posts).map scorePainPoint)

/-! # C6: symptom-cluster shape invariants -/

/-- `sortStrings` preserves length (it is a permutation). -/
theorem sortStrings_length (l : List Str) : (sortStrings l).length = l.length :=
  (List.mergeSort_perm l _).length_eq

/-- Every cluster stored in the group map has between 2 and 5 symptom
names. -/
theorem clusterGroups_symptoms_bounds (posts : List Post) (symptoms : List Symptom) :
    ∀ kc ∈ clusterGroups posts symptoms,
      2 ≤ (kc : Str × Cluster).2.symptoms.length ∧ kc.2.symptoms.length ≤ 5 := by
  unfold clusterGroups
  refine foldl_preserves (clusterStep symptoms)
    (fun m => ∀ kc ∈ m, 2 ≤ (kc : Str × Cluster).2.symptoms.length ∧ kc.2.symptoms.length ≤ 5)
    ?_ posts [] (by simp)
  intro m post hm kc hkc
  unfold clusterStep at hkc
  by_cases hp : 2 ≤ (presentSymptoms symptoms (clusterText post)).length
  · rw [if_pos hp] at hkc
    by_cases hmem : m.any
        (fun kv => kv.1 = jsJoin (cs " + ") (sortStrings (presentSymptoms symptoms (clusterText post))))
    · rw [if_pos hmem] at hkc
      obtain ⟨kv, hkv, hkveq⟩ := List.mem_map.mp hkc
      by_cases he : kv.1 = jsJoin (cs " + ") (sortStrings (presentSymptoms symptoms (clusterText post)))
      · rw [if_pos he] at hkveq
        have := hm kv hkv
        simp only [← hkveq]
        exact this
      · rw [if_neg he] at hkveq
        exact hkveq ▸ hm kv hkv
    · rw [if_neg hmem] at hkc
      rcases List.mem_append.mp hkc with h | h
      · exact hm kc h
      · have hkc' : kc.2.symptoms = sortStrings (presentSymptoms symptoms (clusterText post)) := by
          simp only [List.mem_singleton] at h
          rw [h]
        rw [hkc', sortStrings_length]
        refine ⟨hp, ?_⟩
        unfold presentSymptoms
        simp [List.length_take]
  · rw [if_neg hp] at hkc
    exact hm kc hkc

/-- **C6.**  For every corpus and symptom list, cluster extraction never
emits a cluster with fewer than 2 symptom names or frequency below 2, every
emitted cluster has at most 5 symptom names, at most 20 clusters are
returned, and they are sorted non-increasing by frequency. -/
theorem clusters_wellformed (posts : List Post) (symptoms : List Symptom) :
    (∀ c ∈ findSymptomClusters posts symptoms,
        2 ≤ c.symptoms.length ∧ c.symptoms.length ≤ 5 ∧ 2 ≤ c.frequency)
    ∧ (findSymptomClusters posts symptoms).length ≤ 20
    ∧ (findSymptomClusters posts symptoms).Pairwise (fun a b => b.frequency ≤ a.frequency) := by
  refine ⟨?_, ?_, ?_⟩
  · intro c hc
    unfold findSymptomClusters at hc
    obtain ⟨ic, hic, rfl⟩ := List.mem_map.mp hc
    have hsnd : ic.2 ∈ (((((clusterGroups posts symptoms).map (·.2)).filter
        (fun c => 2 ≤ c.frequency)).mergeSort
          (fun a b => decide (b.frequency ≤ a.frequency))).take 20) := by
      have := List.mem_enum_iff_get?.mp hic
      exact List.get?_mem this
    have hsort : ic.2 ∈ ((((clusterGroups posts symptoms).map (·.2)).filter
        (fun c => 2 ≤ c.frequency)).mergeSort
          (fun a b => decide (b.frequency ≤ a.frequency))) := List.mem_of_mem_take hsnd
    rw [List.mem_mergeSort, List.mem_filter] at hsort
    obtain ⟨hmem, hfreq⟩ := hsort
    obtain ⟨kc, hkc, hkceq⟩ := List.mem_map.mp hmem
    have hb := clusterGroups_symptoms_bounds posts symptoms kc hkc
    rw [hkceq] at hb
    simp only [decide_eq_true_eq] at hfreq
    exact ⟨hb.1, hb.2, hfreq⟩
  · unfold findSymptomClusters
    simp [List.length_take]
  · unfold findSymptomClusters
    refine List.pairwise_map.mpr ?_
    have hs := pairwise_mergeSort_keyDesc (fun c : Cluster => c.frequency)
      (((clusterGroups posts symptoms).map (·.2)).filter (fun c => 2 ≤ c.frequency))
    have ht := List.Pairwise.sublist (List.take_sublist 20 _) hs
    have he := pairwise_enum_of_pairwise
      (R := fun a b : Cluster => b.frequency ≤ a.frequency) ht
    exact he.imp (fun h => h)

/-! # C7: the empty corpus -/

/-- No pain points are extracted from an empty corpus. -/
theorem extractPainPoints_nil : extractPainPoints [] = [] := by
  unfold extractPainPoints painPointAccs
  simp

/-- No symptoms are extracted from an empty corpus. -/
theorem extractSymptoms_nil : extractSymptoms [] = [] := by
  unfold extractSymptoms
  simp

/-- Deduplication of an empty item list is empty. -/
theorem dedupeAndRank_nil : dedupeAndRank [] = [] := by
  unfold dedupeAndRank dedupeGroups
  simp only [List.foldl_nil, List.map_nil, List.mergeSort_nil, List.take_nil]

/-- Mechanism mining over an empty corpus yields five empty collections. -/
theorem extractMechanismMaterial_nil :
    extractMechanismMaterial [] = ⟨[], [], [], [], []⟩ := by
  unfold extractMechanismMaterial
  simp only [List.flatMap_nil, dedupeAndRank_nil]

/-- **C7.**  Analysis of the empty corpus (no posts, empty source log)
completes — the model is a total function — and yields a report with
`summary.totalPainPoints = 0`, `summary.totalSymptoms = 0` and an empty
hypothesis list. -/
theorem analyzeData_empty (metadata : Metadata) (completedAt : Str) :
    (analyzeData ⟨metadata, [], []⟩ completedAt).summary.totalPainPoints = 0
    ∧ (analyzeData ⟨metadata, [], []⟩ completedAt).summary.totalSymptoms = 0
    ∧ (analyzeData ⟨metadata, [], []⟩ completedAt).mechanismHypotheses = [] := by
  have hhyp : generateHypotheses [] [] (extractMechanismMaterial []) = [] := by
    rw [extractMechanismMaterial_nil]
    unfold generateHypotheses
    simp
  unfold analyzeData compileReport
  simp [extractPainPoints_nil, extractSymptoms_nil, hhyp]

/-! # C8: CSV quote-escaping -/

/-- Escaping is the identity on quote-free strings. -/
theorem escapeQuotes_of_quoteFree {s : Str} (h : QuoteFree s) : escapeQuotes s = s := by
  unfold QuoteFree at h
  induction s with
  | nil => rfl
  | cons c t ih =>
    simp only [List.mem_cons, not_or] at h
    unfold escapeQuotes at ih ⊢
    simp only [List.flatMap_cons]
    rw [if_neg (by exact fun hc => h.1 hc.symm), ih h.2]
    rfl

/-- **C8 counterexample.**  The legacy CSV exporter embeds a pain-point
name containing a double quote verbatim, so the produced CSV differs from
the fully quote-escaped CSV the specification describes. -/
theorem csv_escaping_counterexample :
    generateCsvExport quotedNameAnalysis ≠ generateCsvExportSpec quotedNameAnalysis := by
  decide

/-- **C8 amended.**  In the CSV produced by the legacy exporter the copy
phrases are quote-escaped, but pain-point names, symptom names, score
renderings, categories and sources are embedded verbatim: the produced CSV
coincides with the fully-escaped CSV exactly on analyses whose non-phrase
embedded values are quote-free (which holds for every artifact the lexical
analyzer itself produces). -/
theorem csv_escaping_amended (analysis : CsvAnalysis)
    (hpp : ∀ pp ∈ analysis.fullList,
      QuoteFree pp.name ∧ QuoteFree pp.volumeScore ∧ QuoteFree pp.emotionalScore)
    (hsym : ∀ s ∈ analysis.topSymptoms, QuoteFree s.name ∧ QuoteFree s.category)
    (hsrc : ∀ p ∈ analysis.symptomPhrases ++ analysis.problemPhrases ++ analysis.desirePhrases,
      QuoteFree p.source) :
    generateCsvExport analysis = generateCsvExportSpec analysis := by
  unfold generateCsvExport generateCsvExportSpec
  have e1 : ∀ pp ∈ analysis.fullList,
      escapeQuotes pp.name = pp.name ∧ escapeQuotes pp.volumeScore = pp.volumeScore
        ∧ escapeQuotes pp.emotionalScore = pp.emotionalScore := by
    intro pp h
    obtain ⟨h1, h2, h3⟩ := hpp pp h
    exact ⟨escapeQuotes_of_quoteFree h1, escapeQuotes_of_quoteFree h2,
      escapeQuotes_of_quoteFree h3⟩
  have e2 : ∀ s ∈ analysis.topSymptoms,
      escapeQuotes s.name = s.name ∧ escapeQuotes s.category = s.category := by
    intro s h
    obtain ⟨h1, h2⟩ := hsym s h
    exact ⟨escapeQuotes_of_quoteFree h1, escapeQuotes_of_quoteFree h2⟩
  have e3 : ∀ p ∈ analysis.symptomPhrases, escapeQuotes p.source = p.source :=
    fun p h => escapeQuotes_of_quoteFree (hsrc p (by simp [h]))
  have e4 : ∀ p ∈ analysis.problemPhrases, escapeQuotes p.source = p.source :=
    fun p h => escapeQuotes_of_quoteFree (hsrc p (by simp [h]))
  have e5 : ∀ p ∈ analysis.desirePhrases, escapeQuotes p.source = p.source :=
    fun p h => escapeQuotes_of_quoteFree (hsrc p (by simp [h]))
  refine congrArg₂ (· ++ ·) (congrArg₂ (· ++ ·) (congrArg₂ (· ++ ·)
    (congrArg₂ (· ++ ·) (congrArg₂ (· ++ ·) rfl ?_) ?_) ?_) ?_) ?_
  · refine congrArg List.flatten (List.map_congr_left ?_)
    intro pp h
    obtain ⟨h1, h2, h3⟩ := e1 pp h
    rw [h1, h2, h3]
  · refine congrArg List.flatten (List.map_congr_left ?_)
    intro s h
    obtain ⟨h1, h2⟩ := e2 s h
    rw [h1, h2]
  · refine congrArg List.flatten (List.map_congr_left ?_)
    intro p h
    rw [e3 p h]
  · refine congrArg List.flatten (List.map_congr_left ?_)
    intro p h
    rw [e4 p h]
  · refine congrArg List.flatten (List.map_congr_left ?_)
    intro p h
    rw [e5 p h]

/-- Witness for `csv_escaping_amended`: a concrete quote-free analysis (its
copy phrase does contain quotes — those are escaped on both sides). -/
theorem csv_escaping_amended_witness :
    generateCsvExport plainAnalysis = generateCsvExportSpec plainAnalysis :=
  csv_escaping_amended plainAnalysis (by decide) (by decide) (by decide)

/-! # C4: dedupe-and-rank is not idempotent -/

/-- Pairwise holds when the relation holds universally. -/
theorem list_pairwise_of_forall {α : Type} {R : α → α → Prop} (h : ∀ a b, R a b) :
    ∀ l : List α, l.Pairwise R
  | [] => .nil
  | a :: t => .cons (fun b _ => h a b) (list_pairwise_of_forall h t)

/-- **C4 counterexample.**  Re-running `_dedupeAndRank` on its own output
changes the list: the merged `stomach pain` entry of frequency 2 with two
sources collapses back to frequency 1 with a single source. -/
theorem dedupe_not_idempotent :
    dedupeAndRank (dedupeAndRank [dupItemA, dupItemB]) ≠ dedupeAndRank [dupItemA, dupItemB] := by
  have h1 : dedupeGroups [dupItemA, dupItemB] = [(cs "stomach pain", mergedDupItem)] := by
    decide
  have h2 : dedupeAndRank [dupItemA, dupItemB] = [mergedDupItem] := by
    unfold dedupeAndRank
    rw [h1]
    simp
  have h3 : dedupeGroups [mergedDupItem] =
      [(cs "stomach pain", { mergedDupItem with frequency := 1, sources := [cs "u1"] })] := by
    decide
  rw [h2]
  unfold dedupeAndRank
  rw [h3]
  simp [mergedDupItem]

/-- Invariants of the dedupe group map: every entry's key is its item's
dedupe key, keys have length at least 5, and keys are distinct. -/
theorem dedupeGroups_inv (items : List MatItem) :
    (∀ kv ∈ dedupeGroups items, (kv : Str × MatItem).1 = dedupeKey kv.2 ∧ 5 ≤ kv.1.length)
    ∧ ((dedupeGroups items).map (·.1)).Nodup := by
  unfold dedupeGroups
  refine foldl_preserves dedupeStep
    (fun m => (∀ kv ∈ m, (kv : Str × MatItem).1 = dedupeKey kv.2 ∧ 5 ≤ kv.1.length)
      ∧ (m.map (·.1)).Nodup) ?_ items [] (by simp)
  rintro m item ⟨hm, hnd⟩
  unfold dedupeStep
  by_cases hl : (dedupeKey item).length < 5
  · rw [if_pos hl]; exact ⟨hm, hnd⟩
  rw [if_neg hl]
  by_cases hmem : m.any (fun kv => kv.1 = dedupeKey item)
  · rw [if_pos hmem]
    refine ⟨?_, ?_⟩
    · intro kv hkv
      obtain ⟨kv', hkv', heq⟩ := List.mem_map.mp hkv
      by_cases he : kv'.1 = dedupeKey item
      · rw [if_pos he] at heq
        obtain ⟨h1, h2⟩ := hm kv' hkv'
        rw [← heq]
        refine ⟨?_, h2⟩
        simpa [dedupeKey, applyDedupe] using h1
      · rw [if_neg he] at heq
        exact heq ▸ hm kv' hkv'
    · have hfst : (m.map (fun kv =>
          if kv.1 = dedupeKey item then (kv.1, applyDedupe item kv.2) else kv)).map (·.1)
            = m.map (·.1) := by
        rw [List.map_map]
        refine List.map_congr_left ?_
        intro kv _
        by_cases he : kv.1 = dedupeKey item <;> simp [he]
      rw [hfst]; exact hnd
  · rw [if_neg hmem]
    have hnotin : dedupeKey item ∉ m.map (·.1) := by
      intro hin
      obtain ⟨kv, hkv, he⟩ := List.mem_map.mp hin
      exact hmem (List.any_eq_true.mpr ⟨kv, hkv, by simpa using he⟩)
    refine ⟨?_, ?_⟩
    · intro kv hkv
      rcases List.mem_append.mp hkv with h | h
      · exact hm kv h
      · simp only [List.mem_singleton] at h
        subst h
        refine ⟨by simp [dedupeKey, applyDedupe], ?_⟩
        show 5 ≤ (dedupeKey item).length
        omega
    · rw [List.map_append]
      refine List.Nodup.append hnd (by simp) ?_
      simp only [List.map_cons, List.map_nil]
      intro a ha hb
      simp only [List.mem_singleton] at hb
      exact hnotin (hb ▸ ha)

/-- Folding the dedupe step over items whose keys are long enough and
pairwise fresh (relative to the accumulated map) simply appends one
frequency-1 entry per item. -/
theorem dedupeStep_foldl_fresh :
    ∀ (l : List MatItem) (m : List (Str × MatItem)),
      (∀ y ∈ l, 5 ≤ (dedupeKey y).length) →
      (m.map (·.1) ++ l.map dedupeKey).Nodup →
      l.foldl dedupeStep m =
        m ++ l.map (fun y => (dedupeKey y, { y with frequency := 1, sources := [y.source] })) := by
  intro l
  induction l with
  | nil => intro m _ _; simp
  | cons y t ih =>
    intro m hlen hnd
    have h5 : 5 ≤ (dedupeKey y).length := hlen y (List.mem_cons_self y t)
    have hnotin : dedupeKey y ∉ m.map (·.1) := by
      rw [List.nodup_append] at hnd
      intro hin
      exact hnd.2.2 hin (by simp)
    have hstep : dedupeStep m y =
        m ++ [(dedupeKey y, { y with frequency := 1, sources := [y.source] })] := by
      unfold dedupeStep
      rw [if_neg (by omega)]
      rw [if_neg ?hany]
      case hany =>
        intro hany
        obtain ⟨kv, hkv, he⟩ := List.any_eq_true.mp hany
        exact hnotin (List.mem_map.mpr ⟨kv, hkv, by simpa using he⟩)
      rfl
    have ihm := ih (m ++ [(dedupeKey y,
        ({ y with frequency := 1, sources := [y.source] } : MatItem))])
      (fun y' hy' => hlen y' (List.mem_cons_of_mem _ hy'))
      (by
        rw [List.map_append]
        simp only [List.map_cons, List.map_nil]
        rw [List.append_assoc]
        simpa using hnd)
    rw [List.foldl_cons, hstep, ihm]
    simp

/-- **C4 amended.**  Re-running `_dedupeAndRank` on its own output keeps
the items and their order, but resets every `frequency` to 1 and every
`sources` list to the singleton of the item's own `source` field; it is
therefore *not* idempotent on outputs containing a merged (frequency ≥ 2)
entry. -/
theorem dedupe_reapplied (items : List MatItem) :
    dedupeAndRank (dedupeAndRank items) =
      (dedupeAndRank items).map
        (fun it => { it with frequency := 1, sources := [it.source] }) := by
  obtain ⟨hinv, hnd⟩ := dedupeGroups_inv items
  have hmapkey : ((dedupeGroups items).map (·.2)).map dedupeKey
      = (dedupeGroups items).map (·.1) := by
    rw [List.map_map]
    exact List.map_congr_left (fun kv hkv => ((hinv kv hkv).1).symm)
  have hndvals : (((dedupeGroups items).map (·.2)).map dedupeKey).Nodup := by
    rw [hmapkey]; exact hnd
  have hnd2 : ((((dedupeGroups items).map (·.2)).mergeSort
      (fun a b => decide (b.frequency ≤ a.frequency))).map dedupeKey).Nodup := by
    refine (List.Perm.nodup_iff ?_).mpr hndvals
    exact (List.mergeSort_perm _ _).map _
  have hndys : ((dedupeAndRank items).map dedupeKey).Nodup := by
    unfold dedupeAndRank
    rw [List.map_take]
    exact List.Nodup.sublist (List.take_sublist _ _) hnd2
  have hlens : ∀ y ∈ dedupeAndRank items, 5 ≤ (dedupeKey y).length := by
    intro y hy
    unfold dedupeAndRank at hy
    have hy' : y ∈ ((dedupeGroups items).map (·.2)) :=
      List.mem_mergeSort.mp (List.mem_of_mem_take hy)
    obtain ⟨kv, hkv, rfl⟩ := List.mem_map.mp hy'
    have h := hinv kv hkv
    rw [← h.1]
    exact h.2
  have hlen20 : (dedupeAndRank items).length ≤ 20 := by
    unfold dedupeAndRank
    simp [List.length_take]
  have hgroups : dedupeGroups (dedupeAndRank items) =
      (dedupeAndRank items).map
        (fun y => (dedupeKey y, { y with frequency := 1, sources := [y.source] })) := by
    unfold dedupeGroups
    have h := dedupeStep_foldl_fresh (dedupeAndRank items) [] hlens (by simpa using hndys)
    simpa using h
  conv_lhs => rw [dedupeAndRank, hgroups]
  rw [List.map_map]
  have hcomp : ((fun kv => (kv : Str × MatItem).2) ∘
      (fun y => (dedupeKey y, { y with frequency := 1, sources := [y.source] })))
      = (fun it => { it with frequency := 1, sources := [it.source] }) := rfl
  rw [hcomp]
  have hsorted : ((dedupeAndRank items).map
      (fun it => { it with frequency := 1, sources := [it.source] })).Pairwise
        (fun a b => (decide (b.frequency ≤ a.frequency)) = true) := by
    refine List.pairwise_map.mpr ?_
    exact list_pairwise_of_forall (fun a b => by simp) _
  rw [List.mergeSort_of_sorted hsorted]
  exact List.take_of_length_le (by simpa using hlen20)

/-! # C3: `threadCount` counts indicators, not distinct posts -/

/-- One `upsertPain` step: names stay distinct, the touched name's count
rises by one, and names absent from the map have zero count. -/
theorem upsertPain_inv (post : Post) (charge : Nat) (acc : List PainAcc) (ind : PainIndicator)
    (cnt : Str → Nat)
    (hnd : (acc.map (·.name)).Nodup)
    (hcnt : ∀ pp ∈ acc, pp.threadCount = cnt pp.name)
    (habs : ∀ name, (∀ pp ∈ acc, pp.name ≠ name) → cnt name = 0) :
    ((upsertPain post charge acc ind).map (·.name)).Nodup
      ∧ (∀ pp ∈ upsertPain post charge acc ind,
          pp.threadCount = cnt pp.name + (if ind.name = pp.name then 1 else 0))
      ∧ (∀ name, (∀ pp ∈ upsertPain post charge acc ind, pp.name ≠ name) →
          cnt name + (if ind.name = name then 1 else 0) = 0) := by
  unfold upsertPain
  by_cases hmem : acc.any (fun pp => pp.name = ind.name)
  · rw [if_pos hmem]
    obtain ⟨pp0, hpp0, hpp0n⟩ := List.any_eq_true.mp hmem
    simp only [decide_eq_true_eq] at hpp0n
    refine ⟨?_, ?_, ?_⟩
    · have hsame : (acc.map (fun pp =>
          if pp.name = ind.name then applyIndicator post charge ind pp else pp)).map (·.name)
            = acc.map (·.name) := by
        rw [List.map_map]
        refine List.map_congr_left ?_
        intro pp _
        by_cases he : pp.name = ind.name <;> simp [he, applyIndicator]
      rw [hsame]; exact hnd
    · intro pp hpp
      obtain ⟨pp', hpp', heq⟩ := List.mem_map.mp hpp
      have h1 := hcnt pp' hpp'
      by_cases he : pp'.name = ind.name
      · rw [if_pos he] at heq
        rw [← heq]
        simp [applyIndicator, h1, he]
      · rw [if_neg he] at heq
        rw [← heq, if_neg (fun hh => he hh.symm)]
        simp [h1]
    · intro name hne
      have hacc : ∀ pp ∈ acc, pp.name ≠ name := by
        intro pp hpp
        have hm := hne _ (List.mem_map_of_mem
          (fun pp => if pp.name = ind.name then applyIndicator post charge ind pp else pp) hpp)
        by_cases he : pp.name = ind.name
        · rw [if_pos he] at hm
          simpa [applyIndicator] using hm
        · rw [if_neg he] at hm
          exact hm
      have hind : ind.name ≠ name := by
        intro hh
        exact (hacc pp0 hpp0) (by rw [hpp0n, hh])
      rw [if_neg hind]
      simpa using habs name hacc
  · rw [if_neg hmem]
    have hfresh : ∀ pp ∈ acc, pp.name ≠ ind.name := by
      intro pp hpp he
      exact hmem (List.any_eq_true.mpr ⟨pp, hpp, by simpa using he⟩)
    refine ⟨?_, ?_, ?_⟩
    · rw [List.map_append]
      refine List.Nodup.append hnd (by simp) ?_
      intro a ha hb
      simp only [List.map_cons, List.map_nil, List.mem_singleton] at hb
      have hb' : a = ind.name := by
        rw [hb]; rfl
      obtain ⟨pp, hpp, he⟩ := List.mem_map.mp ha
      exact hfresh pp hpp (by rw [he, hb'])
    · intro pp hpp
      rcases List.mem_append.mp hpp with h | h
      · rw [if_neg (fun hh => hfresh pp h hh.symm)]
        simp [hcnt pp h]
      · simp only [List.mem_singleton] at h
        subst h
        have h0 : cnt ind.name = 0 := habs ind.name hfresh
        show (applyIndicator post charge ind (freshPain ind.name)).threadCount = _
        simp [applyIndicator, freshPain, h0]
    · intro name hne
      have hacc : ∀ pp ∈ acc, pp.name ≠ name :=
        fun pp hpp => hne pp (List.mem_append.mpr (Or.inl hpp))
      have hnew : ind.name ≠ name := by
        have h := hne (applyIndicator post charge ind (freshPain ind.name))
          (List.mem_append.mpr (Or.inr (by simp)))
        simpa [applyIndicator, freshPain] using h
      rw [if_neg hnew]
      simpa using habs name hacc

/-- Folding `upsertPain` over an indicator list adds, per name, the number
of indicators bearing that name. -/
theorem upsertPain_foldl_inv (post : Post) (charge : Nat) :
    ∀ (inds : List PainIndicator) (acc : List PainAcc) (cnt : Str → Nat),
      (acc.map (·.name)).Nodup →
      (∀ pp ∈ acc, pp.threadCount = cnt pp.name) →
      (∀ name, (∀ pp ∈ acc, pp.name ≠ name) → cnt name = 0) →
      ((inds.foldl (upsertPain post charge) acc).map (·.name)).Nodup
        ∧ (∀ pp ∈ inds.foldl (upsertPain post charge) acc,
            pp.threadCount = cnt pp.name + (inds.filter (fun i => i.name = pp.name)).length)
        ∧ (∀ name, (∀ pp ∈ inds.foldl (upsertPain post charge) acc, pp.name ≠ name) →
            cnt name + (inds.filter (fun i => i.name = name)).length = 0) := by
  intro inds
  induction inds with
  | nil =>
    intro acc cnt hnd hcnt habs
    refine ⟨by simpa using hnd, ?_, ?_⟩
    · intro pp hpp
      simpa using hcnt pp (by simpa using hpp)
    · intro name hne
      simpa using habs name (fun pp hpp => hne pp (by simpa using hpp))
  | cons ind t ih =>
    intro acc cnt hnd hcnt habs
    obtain ⟨hnd1, hcnt1, habs1⟩ := upsertPain_inv post charge acc ind cnt hnd hcnt habs
    obtain ⟨hnd2, hcnt2, habs2⟩ := ih (upsertPain post charge acc ind)
      (fun n => cnt n + (if ind.name = n then 1 else 0)) hnd1 hcnt1 habs1
    refine ⟨by simpa using hnd2, ?_, ?_⟩
    · intro pp hpp
      have h := hcnt2 pp (by simpa using hpp)
      by_cases he : ind.name = pp.name
      · rw [if_pos he] at h
        have hfc : ((ind :: t).filter (fun i => i.name = pp.name)).length
            = (t.filter (fun i => i.name = pp.name)).length + 1 := by
          rw [List.filter_cons]
          simp [he]
        rw [hfc]
        omega
      · rw [if_neg he] at h
        have hfc : ((ind :: t).filter (fun i => i.name = pp.name)).length
            = (t.filter (fun i => i.name = pp.name)).length := by
          rw [List.filter_cons]
          simp [he]
        rw [hfc]
        omega
    · intro name hne
      have h := habs2 name (fun pp hpp => hne pp (by simpa using hpp))
      by_cases he : ind.name = name
      · rw [if_pos he] at h
        have hfc : ((ind :: t).filter (fun i => i.name = name)).length
            = (t.filter (fun i => i.name = name)).length + 1 := by
          rw [List.filter_cons]
          simp [he]
        rw [hfc]
        omega
      · rw [if_neg he] at h
        have hfc : ((ind :: t).filter (fun i => i.name = name)).length
            = (t.filter (fun i => i.name = name)).length := by
          rw [List.filter_cons]
          simp [he]
        rw [hfc]
        omega

/-- The pain-point accumulation over a post list: each entry's
`threadCount` is the number of matched indicators normalizing to its name,
summed over all posts. -/
theorem painPointAccs_inv :
    ∀ (posts : List Post) (acc : List PainAcc) (cnt : Str → Nat),
      (acc.map (·.name)).Nodup →
      (∀ pp ∈ acc, pp.threadCount = cnt pp.name) →
      (∀ name, (∀ pp ∈ acc, pp.name ≠ name) → cnt name = 0) →
      ((posts.foldl (fun acc post =>
          (findPainIndicators (combinedPainText post)).foldl
            (upsertPain post (calculateEmotionalCharge (combinedPainText post))) acc)
          acc).map (·.name)).Nodup
        ∧ (∀ pp ∈ posts.foldl (fun acc post =>
              (findPainIndicators (combinedPainText post)).foldl
                (upsertPain post (calculateEmotionalCharge (combinedPainText post))) acc) acc,
            pp.threadCount = cnt pp.name + totalIndicatorCount posts pp.name)
        ∧ (∀ name, (∀ pp ∈ posts.foldl (fun acc post =>
              (findPainIndicators (combinedPainText post)).foldl
                (upsertPain post (calculateEmotionalCharge (combinedPainText post))) acc) acc,
              pp.name ≠ name) →
            cnt name + totalIndicatorCount posts name = 0) := by
  intro posts
  induction posts with
  | nil =>
    intro acc cnt hnd hcnt habs
    refine ⟨by simpa using hnd, ?_, ?_⟩
    · intro pp hpp
      simpa [totalIndicatorCount] using hcnt pp (by simpa using hpp)
    · intro name hne
      simpa [totalIndicatorCount] using habs name (fun pp hpp => hne pp (by simpa using hpp))
  | cons p t ih =>
    intro acc cnt hnd hcnt habs
    obtain ⟨hnd1, hcnt1, habs1⟩ := upsertPain_foldl_inv p
      (calculateEmotionalCharge (combinedPainText p))
      (findPainIndicators (combinedPainText p)) acc cnt hnd hcnt habs
    obtain ⟨hnd2, hcnt2, habs2⟩ := ih
      ((findPainIndicators (combinedPainText p)).foldl
        (upsertPain p (calculateEmotionalCharge (combinedPainText p))) acc)
      (fun n => cnt n
        + ((findPainIndicators (combinedPainText p)).filter (fun i => i.name = n)).length)
      hnd1 hcnt1 habs1
    have htot : ∀ n, totalIndicatorCount (p :: t) n =
        ((findPainIndicators (combinedPainText p)).filter (fun i => i.name = n)).length
          + totalIndicatorCount t n := by
      intro n
      simp [totalIndicatorCount]
    refine ⟨by simpa using hnd2, ?_, ?_⟩
    · intro pp hpp
      have h := hcnt2 pp (by simpa using hpp)
      rw [htot pp.name]
      omega
    · intro name hne
      have h := habs2 name (fun pp hpp => hne pp (by simpa using hpp))
      rw [htot name]
      omega

/-- The accumulated `threadCount` of every pain point is the total
indicator count for its name. -/
theorem painPointAccs_threadCount (posts : List Post) :
    ∀ pp ∈ painPointAccs posts, pp.threadCount = totalIndicatorCount posts pp.name := by
  have h := painPointAccs_inv posts [] (fun _ => 0) (by simp) (by simp) (fun _ _ => rfl)
  intro pp hpp
  have h2 := h.2.1 pp hpp
  simpa using h2

/-- **C3 amended.**  For every corpus, each extracted pain point's
`threadCount` equals the total number of matched indicators normalizing to
its name, summed over all posts — a post with `k` such indicators
contributes `k`, not 1. -/
theorem threadCount_counts_indicators (posts : List Post) :
    (extractPainPoints posts).map (fun pp => (pp.name, pp.threadCount))
      = (extractPainPoints posts).map
          (fun pp => (pp.name, totalIndicatorCount posts pp.name)) := by
  refine List.map_congr_left ?_
  intro pp hpp
  rw [extractPainPoints, List.mem_mergeSort] at hpp
  obtain ⟨a, ha, rfl⟩ := List.mem_map.mp hpp
  have h := painPointAccs_threadCount posts a ha
  simp only [scorePainPoint]
  simpa using h

/-- **C3 counterexample.**  A single post containing `suffering from bloat`
and `struggling with bloating` produces one pain point "Bloating" with
`threadCount = 2`, although only one distinct post matched. -/
theorem threadCount_not_distinct_posts :
    (extractPainPoints [doubleIndicatorPost]).map (fun pp => (pp.name, pp.threadCount))
        = [(cs "Bloating", 2)]
    ∧ distinctPostCount [doubleIndicatorPost] (cs "Bloating") = 1 := by
  refine ⟨?_, by decide⟩
  have hacc : (painPointAccs [doubleIndicatorPost]).map (fun a => (a.name, a.threadCount))
      = [(cs "Bloating", 2)] := by decide
  have hlen : (painPointAccs [doubleIndicatorPost]).length = 1 := by
    have h := congrArg List.length hacc
    simpa using h
  obtain ⟨a, ha⟩ := List.length_eq_one.mp hlen
  rw [extractPainPoints, ha]
  simp only [List.map_cons, List.map_nil, List.mergeSort_singleton]
  rw [ha] at hacc
  simp only [List.map_cons, List.map_nil, List.cons.injEq, and_true] at hacc
  simp only [scorePainPoint]
  rw [Prod.ext_iff] at hacc
  simp only [List.cons.injEq, and_true, Prod.ext_iff]
  exact ⟨hacc.1, hacc.2⟩

/-! # C9: exact-name-match forum outranks a 10M-subscriber generic forum -/

/-- The log-scaled volume term lies in `[0, 100]`. -/
theorem volumeNorm_bounds (s : Nat) : 0 ≤ volumeNorm s ∧ volumeNorm s ≤ 100 := by
  unfold volumeNorm
  by_cases h : 0 < s
  · rw [if_pos h]
    have h1 : (1 : ℝ) ≤ (s : ℝ) := by exact_mod_cast h
    have hlog : 0 ≤ Real.logb 10 (s : ℝ) := Real.logb_nonneg (by norm_num) h1
    exact ⟨le_min (by norm_num) (by positivity), min_le_left _ _⟩
  · rw [if_neg h]
    norm_num

/-- The volume term of a 10-million-subscriber forum is exactly 100. -/
theorem volumeNorm_tenMillion : volumeNorm 10000000 = 100 := by
  unfold volumeNorm
  rw [if_pos (by norm_num)]
  have hc : ((10000000 : Nat) : ℝ) = (10 : ℝ) ^ (7 : ℕ) := by norm_num
  rw [hc, Real.logb_pow]
  rw [Real.logb_self_eq_one (by norm_num)]
  norm_num

/-- **C9.**  For the topic `gut health`: a forum named exactly `guthealth`
gets relevance 100 under both relevance computations; a forum found only
through matching posts whose name has no `health` overlap gets relevance at
most 50; with the 70% relevance / 30% log-volume weighting the exact-match
forum's combined score strictly exceeds the 10-million-subscriber generic
forum's; and the discovery ranking places any strictly greater combined
score at a strictly smaller index. -/
theorem guthealth_ranked_above_generic :
    (∀ count : Nat, postFoundRelevance (cs "gut health") (cs "guthealth") count = 100)
    ∧ (∀ sub : SubredditData, sub.display_name = cs "guthealth" →
        calculateRelevance (cs "gut health") sub = 100)
    ∧ (∀ (nameLower : Str) (count : Nat),
        nameLower ≠ cs "guthealth" →
        jsIncludes nameLower (cs "guthealth") = false →
        jsIncludes nameLower (cs "health") = false →
        postFoundRelevance (cs "gut health") nameLower count ≤ 50)
    ∧ (∀ (hSubs relG : Nat), relG ≤ 50 →
        combinedScoreOf relG 10000000 < combinedScoreOf 100 hSubs)
    ∧ (∀ (results : List DiscResult) (i j : Nat)
        (hi : i < (rankResults results).length) (hj : j < (rankResults results).length),
        ((rankResults results).get ⟨j, hj⟩).combinedScore
          < ((rankResults results).get ⟨i, hi⟩).combinedScore → i < j) := by
  have hts : stripWs (jsLower (cs "gut health")) = cs "guthealth" := by decide
  refine ⟨?_, ?_, ?_, ?_, ?_⟩
  · intro count
    unfold postFoundRelevance
    dsimp only
    rw [if_pos (by decide)]
  · intro sub hname
    unfold calculateRelevance
    rw [hname]
    dsimp only
    rw [if_pos (by decide)]
    split_ifs <;> rfl
  · intro nameLower count h1 h2 h3
    unfold postFoundRelevance
    dsimp only
    rw [hts]
    rw [if_neg h1, if_neg (by simp [h2])]
    have htw : (jsSplitWsPlus (jsLower (cs "gut health"))).filter (fun w => 3 < w.length)
        = [cs "health"] := by decide
    rw [htw]
    rw [if_neg (by simp [h3])]
    exact min_le_left _ _
  · intro hSubs relG hle
    unfold combinedScoreOf
    rw [volumeNorm_tenMillion]
    have h1 := (volumeNorm_bounds hSubs).1
    have h2 : (relG : ℝ) ≤ 50 := by exact_mod_cast hle
    have h3 : ((100 : Nat) : ℝ) = 100 := by norm_num
    rw [h3]
    nlinarith [h1, h2]
  · intro results i j hi hj hgt
    have hp : (rankResults results).Pairwise
        (fun a b => b.combinedScore ≤ a.combinedScore) := by
      unfold rankResults
      refine List.pairwise_map.mpr ?_
      have hs := pairwise_mergeSort_keyDesc (fun r : DiscResult => r.combinedScore)
        (results.map fun r =>
          { r with combinedScore := combinedScoreOf r.relevanceScore r.subscribers })
      have he := pairwise_enum_of_pairwise
        (R := fun a b : DiscResult => b.combinedScore ≤ a.combinedScore) hs
      exact he.imp (fun h => h)
    rw [List.pairwise_iff_get] at hp
    by_contra hij
    rcases Nat.lt_or_ge j i with hji | hji
    · exact absurd (hp ⟨j, hj⟩ ⟨i, hi⟩ hji) (not_le.mpr hgt)
    · have : i = j := by omega
      subst this
      exact lt_irrefl _ hgt

/-- Witness for `guthealth_ranked_above_generic` at concrete inputs. -/
theorem guthealth_ranked_above_generic_witness :
    postFoundRelevance (cs "gut health") (cs "guthealth") 3 = 100
    ∧ calculateRelevance (cs "gut health") guthealthSub = 100
    ∧ postFoundRelevance (cs "gut health") (cs "askreddit") 6 ≤ 50
    ∧ combinedScoreOf 50 10000000 < combinedScoreOf 100 52000 :=
  ⟨guthealth_ranked_above_generic.1 3,
   guthealth_ranked_above_generic.2.1 guthealthSub rfl,
   guthealth_ranked_above_generic.2.2.1 (cs "askreddit") 6 (by decide) (by decide) (by decide),
   guthealth_ranked_above_generic.2.2.2.1 52000 50 (by decide)⟩
